import Mathlib

/-! # Munich rent dashboard (`script.js`): shallow embedding and verified properties

The dashboard is a single JavaScript file.  Its pure helpers become Lean
functions; the module-level variables it mutates (`highlightedLayer`,
`allLayers`, the map's layer set, the marker cluster group) become fields of
explicit state records that every handler takes and returns.

JavaScript values are embedded as a small sum type.  A number is `NaN`, an
infinity, or a finite value kept as the rational it denotes; the arithmetic
operators round their exact result to the nearest binary64 value, ties to
even, as IEEE-754 prescribes (only the sign of a zero is not kept).  The
library routines the script calls but does not define
(`StringToNumber`, `parseFloat`, `Number::toString` for very large values) are
parameters collected in `JSBuiltins`, so every theorem holds for whatever
these routines compute.  What Leaflet does with a `null` overlay in
`L.control.layers` is the parameter `Leaflet`.
-/

namespace MunichCalculator

/-! ## JavaScript values -/

/-- JavaScript numbers: `NaN`, `+Infinity`, `-Infinity`, or a finite value kept
as an exact rational. -/
inductive JSNum where
  | nan
  | posInf
  | negInf
  | fin (q : ℚ)
  deriving DecidableEq

/-- The primitive JavaScript values that reach the script from parsed CSV rows,
GeoJSON properties and form inputs. -/
inductive JSValue where
  | undefined
  | null
  | bool (b : Bool)
  | num (n : JSNum)
  | str (s : String)
  deriving DecidableEq

/-- Library routines used by `script.js` whose definitions live in the
JavaScript runtime, taken as parameters. -/
structure JSBuiltins where
  /-- The runtime's `StringToNumber` (used by `==`, `<`, `<=` on strings). -/
  stringToNumber : String → JSNum
  /-- The global `parseFloat`, applied to an arbitrary value. -/
  parseFloat : JSValue → JSNum
  /-- The runtime's `Number::toString` on a finite non-negative value; `toFixed`
  falls back to it from `10^21` upwards. -/
  numberToString : ℚ → String

/-! ## Binary64 rounding -/

/-- The power `2^e` for an integer exponent. -/
def pow2 (e : ℤ) : ℚ :=
  if 0 ≤ e then ((2 ^ e.toNat : ℕ) : ℚ) else 1 / ((2 ^ (-e).toNat : ℕ) : ℚ)

/-- Binary logarithm of a natural number, rounded down, computed with a bound
on the number of halvings. -/
def natLog2Aux : Nat → Nat → Nat
  | 0, _ => 0
  | fuel + 1, n => if n < 2 then 0 else natLog2Aux fuel (n / 2) + 1

/-- Binary logarithm of a natural number, rounded down (`0` for `0`). -/
def natLog2 (n : Nat) : Nat := natLog2Aux n n

/-- The exponent `e` with `2^e ≤ x < 2^(e+1)`, for `x > 0`. -/
def floorLog2 (x : ℚ) : ℤ :=
  let e0 : ℤ := (natLog2 x.num.natAbs : ℤ) - (natLog2 x.den : ℤ)
  if pow2 e0 ≤ x then e0 else e0 - 1

/-- The nearest integer, the even one on a tie. -/
def roundHalfEven (x : ℚ) : ℤ :=
  let f := Int.floor x
  let r := x - f
  if r < 1 / 2 then f
  else if 1 / 2 < r then f + 1
  else if f % 2 = 0 then f else f + 1

/-- The binary64 value nearest to a rational (round to nearest, ties to even):
53 significant bits, exponents from -1022 (below which the spacing stays
`2^-1074`) to 1023, and an infinity from `2^1024` upwards. -/
def roundBinary64 (x : ℚ) : JSNum :=
  if x = 0 then .fin 0
  else
    let a := |x|
    let e := max (floorLog2 a) (-1022)
    let quantum := pow2 (e - 52)
    let r := (roundHalfEven (a / quantum) : ℚ) * quantum
    if pow2 1024 ≤ r then (if x < 0 then .negInf else .posInf)
    else .fin (if x < 0 then -r else r)

/-- Specification side of "no rounding occurs": the rational is itself a
finite binary64 value. -/
def isBinary64 (x : ℚ) : Prop := roundBinary64 x = .fin x

namespace JSNum

/-- IEEE equality `Number::equal`: `NaN` equals nothing, not even itself. -/
def eq : JSNum → JSNum → Bool
  | fin a, fin b => decide (a = b)
  | posInf, posInf => true
  | negInf, negInf => true
  | _, _ => false

/-- Strict comparison `Number::lessThan`, with the undefined outcome on `NaN`
read as `false`, as the `<` operator does. -/
def lt : JSNum → JSNum → Bool
  | fin a, fin b => decide (a < b)
  | negInf, fin _ => true
  | negInf, posInf => true
  | fin _, posInf => true
  | _, _ => false

/-- The `<=` operator on numbers: `a <= b` is `!(b < a)`, except that it is
`false` as soon as one side is `NaN`. -/
def le : JSNum → JSNum → Bool
  | nan, _ => false
  | _, nan => false
  | a, b => !(lt b a)

/-- The `>` operator on numbers: `a > b` is `b < a`. -/
def gt (a b : JSNum) : Bool := lt b a

/-- The `>=` operator on numbers: `a >= b` is `!(a < b)`, `false` on `NaN`. -/
def ge : JSNum → JSNum → Bool
  | nan, _ => false
  | _, nan => false
  | a, b => !(lt a b)

/-- Addition `Number::add`: the exact sum of two finite values, rounded to
binary64. -/
def add : JSNum → JSNum → JSNum
  | nan, _ => nan
  | _, nan => nan
  | posInf, negInf => nan
  | negInf, posInf => nan
  | posInf, _ => posInf
  | _, posInf => posInf
  | negInf, _ => negInf
  | _, negInf => negInf
  | fin a, fin b => roundBinary64 (a + b)

/-- Division `Number::divide`: the exact quotient of two finite values,
rounded to binary64 (the sign of a zero is not tracked: a zero divisor counts
as `+0`). -/
def div : JSNum → JSNum → JSNum
  | nan, _ => nan
  | _, nan => nan
  | posInf, posInf => nan
  | posInf, negInf => nan
  | negInf, posInf => nan
  | negInf, negInf => nan
  | posInf, fin b => if b < 0 then negInf else posInf
  | negInf, fin b => if b < 0 then posInf else negInf
  | fin _, posInf => fin 0
  | fin _, negInf => fin 0
  | fin a, fin b =>
    if b = 0 then (if a = 0 then nan else if a < 0 then negInf else posInf)
    else roundBinary64 (a / b)

end JSNum

/-- The abstract operation `ToNumber` on the embedded values. -/
def toNumber (js : JSBuiltins) : JSValue → JSNum
  | .undefined => .nan
  | .null => .fin 0
  | .bool b => .fin (if b then 1 else 0)
  | .num n => n
  | .str s => js.stringToNumber s

/-- The loose equality operator `==` (`IsLooselyEqual`) on the embedded
values. -/
def looseEq (js : JSBuiltins) : JSValue → JSValue → Bool
  | .undefined, .undefined => true
  | .undefined, .null => true
  | .null, .undefined => true
  | .null, .null => true
  | .undefined, _ => false
  | .null, _ => false
  | _, .undefined => false
  | _, .null => false
  | .str a, .str b => decide (a = b)
  | x, y => JSNum.eq (toNumber js x) (toNumber js y)

/-- The strict equality operator `===` on the embedded values. -/
def strictEq : JSValue → JSValue → Bool
  | .undefined, .undefined => true
  | .null, .null => true
  | .bool a, .bool b => decide (a = b)
  | .num a, .num b => JSNum.eq a b
  | .str a, .str b => decide (a = b)
  | _, _ => false

/-- The test `value < c` against a numeric literal `c`. -/
def ltLit (js : JSBuiltins) (value : JSValue) (c : ℚ) : Bool :=
  JSNum.lt (toNumber js value) (.fin c)

/-- The test `value <= c` against a numeric literal `c`. -/
def leLit (js : JSBuiltins) (value : JSValue) (c : ℚ) : Bool :=
  JSNum.le (toNumber js value) (.fin c)

/-- Truthiness (`ToBoolean`), as used by `||` and `if`. -/
def truthy : JSValue → Bool
  | .undefined => false
  | .null => false
  | .bool b => b
  | .num .nan => false
  | .num (.fin q) => decide (q ≠ 0)
  | .num _ => true
  | .str s => decide (s ≠ "")

/-! ## `Number.prototype.toFixed` -/

/-- Decimal digits of `n`, most significant first, computed with a bound on
the number of divisions. -/
def decimalDigitsAux : Nat → Nat → List Char
  | 0, n => [Nat.digitChar (n % 10)]
  | fuel + 1, n =>
    if n < 10 then [Nat.digitChar n]
    else decimalDigitsAux fuel (n / 10) ++ [Nat.digitChar (n % 10)]

/-- Decimal digits of a natural number, most significant first (`"0"` for
zero): the string form of a non-negative integer. -/
def decimalDigits (n : Nat) : List Char := decimalDigitsAux n n

/-- The integer `n` for which `n / 10^f - x` is as close to zero as possible,
the larger one on a tie (step 10.a of `toFixed`), for `x ≥ 0`. -/
def roundScaled (f : Nat) (x : ℚ) : Nat := (Int.floor (x * 10 ^ f + 1 / 2)).toNat

/-- Steps 10.b-10.c of `toFixed`: write `n`, pad with zeros on the left up to
`f + 1` digits, and put the decimal point before the last `f` digits. -/
def fixedDigits (f n : Nat) : List Char :=
  let m := decimalDigits n
  if f = 0 then m
  else
    let m := if m.length ≤ f then List.replicate (f + 1 - m.length) '0' ++ m else m
    m.take (m.length - f) ++ '.' :: m.drop (m.length - f)

/-- The method `Number.prototype.toFixed` called as `x.toFixed(f)`. -/
def toFixed (js : JSBuiltins) (f : Nat) : JSNum → String
  | .nan => "NaN"
  | .posInf => "Infinity"
  | .negInf => "-Infinity"
  | .fin q =>
    let s := if q < 0 then "-" else ""
    let x := if q < 0 then -q else q
    if 10 ^ 21 ≤ x then s ++ js.numberToString x
    else s ++ String.mk (fixedDigits f (roundScaled f x))

/-- Specification side of "written with two decimal places": the sign, the
integer part of the magnitude rounded to the nearest hundredth (half a
hundredth rounds up in magnitude), a point, and exactly two decimal digits. -/
def twoDecimalPlaces (x : ℚ) : String :=
  let n := (round (|x| * 100)).toNat
  (if x < 0 then "-" else "") ++
    String.mk (decimalDigits (n / 100) ++
      ['.', Nat.digitChar (n / 10 % 10), Nat.digitChar (n % 10)])

/-- Specification side of "the arithmetic mean": the sum divided by the
count. -/
def arithmeticMean (xs : List ℚ) : ℚ := xs.sum / xs.length

/-! ## A concrete runtime

The statements below quantify over every `JSBuiltins`.  To run the embedded
functions on explicit strings there is also one concrete runtime: it computes
the value a numeric literal denotes exactly and rounds it once to binary64,
and it writes a large number with the fewest digits that read back as the
same binary64 value. -/

/-- The characters `StrWhiteSpaceChar` that `StringToNumber` and `parseFloat`
strip. -/
def isStrWhiteSpace (c : Char) : Bool :=
  c = '\t' || c = '\n' || c = '\x0b' || c = '\x0c' || c = '\r' || c = ' ' ||
  c = '\u00a0' || c = '\u1680' || (0x2000 ≤ c.toNat && c.toNat ≤ 0x200a) ||
  c = '\u2028' || c = '\u2029' || c = '\u202f' || c = '\u205f' || c = '\u3000' ||
  c = '\ufeff'

/-- Value of a digit character in a radix up to sixteen, if it is one. -/
def digitValue (radix : Nat) (c : Char) : Option Nat :=
  let v :=
    if '0' ≤ c ∧ c ≤ '9' then c.toNat - '0'.toNat
    else if 'a' ≤ c ∧ c ≤ 'f' then c.toNat - 'a'.toNat + 10
    else if 'A' ≤ c ∧ c ≤ 'F' then c.toNat - 'A'.toNat + 10
    else 16
  if v < radix then some v else none

/-- Reads the longest run of digits at the head of the input: the value read
so far, the number of digits read so far, and the characters left. -/
def scanDigits (radix : Nat) : List Char → Nat → Nat → Nat × Nat × List Char
  | [], acc, len => (acc, len, [])
  | c :: cs, acc, len =>
    match digitValue radix c with
    | some v => scanDigits radix cs (acc * radix + v) (len + 1)
    | none => (acc, len, c :: cs)

/-- Reads an `ExponentPart` at the head of the input, if there is one: the
exponent and the characters left. -/
def scanExponent : List Char → Int × List Char
  | c :: cs =>
    if c = 'e' ∨ c = 'E' then
      let (neg, ds) :=
        match cs with
        | '+' :: r => (false, r)
        | '-' :: r => (true, r)
        | r => (false, r)
      match scanDigits 10 ds 0 0 with
      | (_, 0, _) => (0, c :: cs)
      | (e, _, r) => (if neg then -(e : Int) else (e : Int), r)
    else (0, c :: cs)
  | [] => (0, [])

/-- Reads the longest `StrUnsignedDecimalLiteral` at the head of the input:
its value and the characters left, or `none` when there is none. -/
def scanUnsignedDecimal (cs : List Char) : Option (JSNum × List Char) :=
  if "Infinity".data <+: cs then some (.posInf, cs.drop 8)
  else
    let (ip, il, r1) := scanDigits 10 cs 0 0
    let (fp, fl, r2) :=
      match r1 with
      | '.' :: r => scanDigits 10 r 0 0
      | r => (0, 0, r)
    let dot := match r1 with
      | '.' :: _ => true
      | _ => false
    if il = 0 ∧ fl = 0 then none
    else
      let (e, r3) := scanExponent (if dot then r2 else r1)
      some (.fin (((ip : ℚ) + (fp : ℚ) / 10 ^ fl) * 10 ^ e), r3)

/-- Negation of a number. -/
def JSNum.neg : JSNum → JSNum
  | .nan => .nan
  | .posInf => .negInf
  | .negInf => .posInf
  | .fin q => .fin (-q)

/-- Reads the longest `StrDecimalLiteral` (optional sign included) at the head
of the input. -/
def scanDecimal : List Char → Option (JSNum × List Char)
  | '+' :: cs => scanUnsignedDecimal cs
  | '-' :: cs => (scanUnsignedDecimal cs).map (fun p => (JSNum.neg p.1, p.2))
  | cs => scanUnsignedDecimal cs

/-- Reads a whole non-decimal integer literal (`0x`, `0o`, `0b` forms). -/
def scanRadixLiteral (cs : List Char) : Option JSNum :=
  let body (radix : Nat) (r : List Char) : Option JSNum :=
    match scanDigits radix r 0 0 with
    | (_, 0, _) => none
    | (v, _, []) => some (.fin v)
    | _ => none
  match cs with
  | '0' :: 'x' :: r => body 16 r
  | '0' :: 'X' :: r => body 16 r
  | '0' :: 'o' :: r => body 8 r
  | '0' :: 'O' :: r => body 8 r
  | '0' :: 'b' :: r => body 2 r
  | '0' :: 'B' :: r => body 2 r
  | _ => none

/-- The Number value of a mathematical value: a finite value is rounded to
binary64, the others stay. -/
def JSNum.toBinary64 : JSNum → JSNum
  | .fin q => roundBinary64 q
  | n => n

/-- The operation `StringToNumber`: the value the literal denotes, rounded to
binary64. -/
def stringToNumberExact (s : String) : JSNum :=
  let cs := ((s.data.dropWhile isStrWhiteSpace).reverse.dropWhile isStrWhiteSpace).reverse
  if cs = [] then .fin 0
  else
    match scanRadixLiteral cs with
    | some v => v.toBinary64
    | none =>
      match scanDecimal cs with
      | some (v, []) => v.toBinary64
      | _ => .nan

/-- The global `parseFloat`: a string is read up to the end of its longest
leading decimal literal and the value read is rounded to binary64, a number is
returned as it is, and any other value (whose string form starts with a
letter) gives `NaN`. -/
def parseFloatExact : JSValue → JSNum
  | .str s =>
    match scanDecimal (s.data.dropWhile isStrWhiteSpace) with
    | some (v, _) => v.toBinary64
    | none => .nan
  | .num n => n
  | _ => .nan

/-- The multiple of `10^(n - k)` that `Number::toString` would print for `x`
with `k` significant digits, if one reads back as `x`: of the two multiples
around `x`, one that rounds to `x`, the nearer one when both do, the even one
on a tie. -/
def roundTripCandidate (x : ℚ) (n k : Nat) : Option Nat :=
  let scale : Nat := 10 ^ (n - k)
  let q : Nat := (Int.floor (x / (scale : ℚ))).toNat
  let lo : Nat := q * scale
  let hi : Nat := (q + 1) * scale
  let okLo := decide (0 < lo) && decide (roundBinary64 (lo : ℚ) = .fin x)
  let okHi := decide (roundBinary64 (hi : ℚ) = .fin x)
  if okLo && okHi then
    if x - (lo : ℚ) < (hi : ℚ) - x then some lo
    else if (hi : ℚ) - x < x - (lo : ℚ) then some hi
    else if q % 2 = 0 then some lo else some hi
  else if okLo then some lo
  else if okHi then some hi
  else none

/-- `Number::toString` for a value of at least `10^21`: exponential form with
the fewest significant digits that read back as the same binary64 value. -/
def numberToStringExact (x : ℚ) : String :=
  let n := (decimalDigits (Int.floor x).toNat).length
  let v :=
    match (List.range 17).findSome? (fun i => roundTripCandidate x n (i + 1)) with
    | some v => v
    | none => (Int.floor x).toNat
  let ds := decimalDigits v
  let sig := (ds.reverse.dropWhile (fun c => c = '0')).reverse
  let mant :=
    match sig with
    | [] => ['0']
    | [d] => [d]
    | d :: r => d :: '.' :: r
  String.mk mant ++ "e+" ++ String.mk (decimalDigits (ds.length - 1))

/-- The concrete runtime: each routine returns exactly the binary64 result
that the language prescribes. -/
def exactRuntime : JSBuiltins where
  stringToNumber := stringToNumberExact
  parseFloat := parseFloatExact
  numberToString := numberToStringExact

/-! ## Rent calculator (`calculateBaseRent`) -/

/-- One parsed CSV row of `dataset`; Papa Parse yields one string per header
column, and a missing column reads as `undefined`. -/
structure RentRow where
  newlyConst : JSValue
  balcony : JSValue
  lift : JSValue
  garden : JSValue
  serviceCharge : JSValue
  livingSpace : JSValue
  noRooms : JSValue
  postal_code : JSValue
  baseRent : JSValue
  deriving DecidableEq

/-- The `inputs` object handed to `calculateBaseRent`. -/
structure RentQuery where
  newlyConst : JSValue
  balcony : JSValue
  lift : JSValue
  garden : JSValue
  serviceCharge : JSValue
  livingSpace : JSValue
  noRooms : JSValue
  postal_code : JSValue
  deriving DecidableEq

/-- The predicate passed to `dataset.filter` in `calculateBaseRent`. -/
def rowMatches (js : JSBuiltins) (inputs : RentQuery) (row : RentRow) : Bool :=
  looseEq js row.newlyConst inputs.newlyConst &&
  looseEq js row.balcony inputs.balcony &&
  looseEq js row.lift inputs.lift &&
  looseEq js row.garden inputs.garden &&
  looseEq js row.serviceCharge inputs.serviceCharge &&
  looseEq js row.livingSpace inputs.livingSpace &&
  looseEq js row.noRooms inputs.noRooms &&
  looseEq js row.postal_code inputs.postal_code

/-- The local `matchingRows` of `calculateBaseRent`. -/
def matchingRows (js : JSBuiltins) (dataset : List RentRow) (inputs : RentQuery) :
    List RentRow :=
  dataset.filter (rowMatches js inputs)

/-- The local `totalBaseRent` of `calculateBaseRent`: the `reduce` over the
matching rows, starting from `0`. -/
def totalBaseRent (js : JSBuiltins) (rows : List RentRow) : JSNum :=
  rows.foldl (fun sum row => JSNum.add sum (js.parseFloat row.baseRent)) (.fin 0)

/-- The function `calculateBaseRent(inputs)` over the global `dataset`. -/
def calculateBaseRent (js : JSBuiltins) (dataset : List RentRow) (inputs : RentQuery) :
    String :=
  let rows := matchingRows js dataset inputs
  if rows.length = 0 then "No matches found."
  else
    let averageBaseRent := JSNum.div (totalBaseRent js rows) (.fin rows.length)
    "€ " ++ toFixed js 2 averageBaseRent

/-- A CSV row as Papa Parse delivers it (every cell a string): a newly built
flat with a lift, no balcony, no garden, in postal code 80331, with the given
`baseRent` cell. -/
def sampleRow (baseRent : String) : RentRow where
  newlyConst := .str "1"
  balcony := .str "0"
  lift := .str "1"
  garden := .str "0"
  serviceCharge := .str "200"
  livingSpace := .str "75"
  noRooms := .str "3"
  postal_code := .str "80331"
  baseRent := .str baseRent

/-- The `inputs` object `handleCalculate` builds for the flat of `sampleRow`:
the four yes/no fields as the numbers `1`/`0`, the others as form strings. -/
def sampleQuery : RentQuery where
  newlyConst := .num (.fin 1)
  balcony := .num (.fin 0)
  lift := .num (.fin 1)
  garden := .num (.fin 0)
  serviceCharge := .str "200"
  livingSpace := .str "75"
  noRooms := .str "3"
  postal_code := .str "80331"

/-! ## Colour scales (`getClusterColor`, `getColor`) -/

/-- The function `getClusterColor(count)`. -/
def getClusterColor (count : ℚ) : String :=
  if count > 50 then "#8c2d04"
  else if count > 20 then "#d94801"
  else if count > 10 then "#f16913"
  else if count > 5 then "#fd8d3c"
  else if count > 2 then "#fdae6b"
  else "#feedde"

/-- Specification side of `clusterColor`: the shade keyed by the highest
threshold the count is strictly above, the lightest shade when there is
none. -/
def shadeOfThreshold : Option Nat → String
  | some 2 => "#fdae6b"
  | some 5 => "#fd8d3c"
  | some 10 => "#f16913"
  | some 20 => "#d94801"
  | some 50 => "#8c2d04"
  | _ => "#feedde"

/-- Specification side of `clusterColor`: the highest of the thresholds
2, 5, 10, 20, 50 that the count is strictly above, if any. -/
def highestThresholdBelow (count : Nat) : Option Nat :=
  ([2, 5, 10, 20, 50].filter (fun t => t < count)).max?

/-- The function `getColor(value)`. -/
def getColor (js : JSBuiltins) (value : JSValue) : String :=
  if strictEq value (.str "NaN") then "#808080"
  else if ltLit js value 10.98 then "#FFFFFF"
  else if leLit js value 18.14 then "#FFEDA0"
  else if leLit js value 20.87 then "#FEB24C"
  else if leLit js value 24.44 then "#FD8D3C"
  else if leLit js value 28.30 then "#E31A1C"
  else "#808080"

/-! ## Dashboard state -/

/-- The style options of a district shape that the script sets: `setStyle`
merges the given keys into the shape's options and leaves the others. -/
structure PathStyle where
  fillColor : String
  weight : ℚ
  color : String
  fillOpacity : ℚ
  deriving DecidableEq

/-- A district shape: the Leaflet layer created for one GeoJSON feature,
identified by its stamp, with the feature properties the script reads. -/
structure DistrictLayer where
  id : Nat
  price_area : JSValue
  plz : JSValue
  deriving DecidableEq

/-- A stop marker: the circle marker created for one transit stop, identified
by its stamp, with the properties object of its feature. -/
structure StopMarker where
  id : Nat
  fclass : JSValue
  name : JSValue
  deriving DecidableEq

/-- The option `maxClusterRadius` of the cluster group: the zoom function
given at construction, or a number assigned later. -/
inductive MaxClusterRadius where
  | zoomFunction
  | constant (r : ℚ)
  deriving DecidableEq

/-- The two options of `markerCluster` that the script reassigns. -/
structure ClusterOptions where
  maxClusterRadius : MaxClusterRadius
  disableClusteringAtZoom : ℚ
  deriving DecidableEq

/-- The module-level state of `script.js` together with the part of the map
object it reads and writes. -/
structure Dashboard where
  /-- The variable `highlightedLayer` (`none` is `null`). -/
  highlightedLayer : Option DistrictLayer
  /-- The array `allLayers`, in creation order. -/
  allLayers : List DistrictLayer
  /-- The current style options of each district shape. -/
  style : DistrictLayer → PathStyle
  /-- Whether `map.hasLayer` holds of a district shape. -/
  shapeOnMap : DistrictLayer → Bool
  /-- Whether `trainLayer` is set (non-null). -/
  trainLayer : Bool
  /-- The variable `busStopsLayer`: `none` is `null`, otherwise the markers
  that `getLayers()` returns. -/
  busStopsLayer : Option (List StopMarker)
  /-- Whether `districtLayer` is set (non-null). -/
  districtLayer : Bool
  /-- Whether `map.hasLayer(trainLayer)`. -/
  trainOnMap : Bool
  /-- Whether `map.hasLayer(busStopsLayer)`. -/
  busStopsOnMap : Bool
  /-- Whether `map.hasLayer(markerCluster)`. -/
  clusterOnMap : Bool
  /-- Whether `map.hasLayer(districtLayer)`. -/
  districtOnMap : Bool
  /-- Whether a stop marker is a member of `markerCluster`. -/
  clusterMembers : StopMarker → Bool
  /-- The reassigned options of `markerCluster`. -/
  clusterOptions : ClusterOptions
  /-- Whether the `zoomend` handler that `loadBusStopsLayer` registers is
  installed. -/
  stopsZoomHandler : Bool
  /-- The map centre. -/
  center : ℚ × ℚ
  /-- The map zoom. -/
  zoom : ℚ
  /-- Whether the transport section of the legend is displayed. -/
  transportLegend : Bool

/-- The call `map.addLayer(layer)` on a district shape. -/
def Dashboard.addShape (s : Dashboard) (layer : DistrictLayer) : Dashboard :=
  { s with shapeOnMap := fun l => if l = layer then true else s.shapeOnMap l }

/-- The call `map.removeLayer(layer)` on a district shape. -/
def Dashboard.removeShape (s : Dashboard) (layer : DistrictLayer) : Dashboard :=
  { s with shapeOnMap := fun l => if l = layer then false else s.shapeOnMap l }

/-- The call `layer.setStyle` with the keys weight, color, fillOpacity on a
district shape. -/
def Dashboard.setStyle (s : Dashboard) (layer : DistrictLayer) (weight : ℚ) (color : String)
    (fillOpacity : ℚ) : Dashboard :=
  { s with style := fun l =>
      if l = layer then
        { s.style l with weight := weight, color := color, fillOpacity := fillOpacity }
      else s.style l }

/-- The call `markerCluster.addLayer(stop)` on a stop marker. -/
def Dashboard.addToCluster (s : Dashboard) (stop : StopMarker) : Dashboard :=
  { s with clusterMembers := fun m => if m = stop then true else s.clusterMembers m }

/-- The call `markerCluster.removeLayer(stop)` on a stop marker. -/
def Dashboard.removeFromCluster (s : Dashboard) (stop : StopMarker) : Dashboard :=
  { s with clusterMembers := fun m => if m = stop then false else s.clusterMembers m }

/-! ## Highlighting (`highlightShape`) -/

/-- The function `highlightShape(layer)`. -/
def highlightShape (layer : DistrictLayer) (s : Dashboard) : Dashboard :=
  let s1 :=
    match s.highlightedLayer with
    | some h => s.setStyle h 2 "white" 0.7
    | none => s
  let s2 := s1.setStyle layer 4 "#48ffed" 0.9
  { s2 with highlightedLayer := some layer }

/-- The default style of a district shape: weight 2, white border, fill
opacity 0.7. -/
def isDefaultStyle (st : PathStyle) : Prop :=
  st.weight = 2 ∧ st.color = "white" ∧ st.fillOpacity = 0.7

/-- The highlight style: weight 4, border `#48ffed`, fill opacity 0.9. -/
def isHighlightStyle (st : PathStyle) : Prop :=
  st.weight = 4 ∧ st.color = "#48ffed" ∧ st.fillOpacity = 0.9

/-! ## Legend filter and reset (`filterShapesByColor`, `resetLayers`) -/

/-- The body of the `forEach` callback in `filterShapesByColor`. -/
def filterShape (js : JSBuiltins) (color : String) (s : Dashboard) (layer : DistrictLayer) :
    Dashboard :=
  let priceArea := layer.price_area
  if strictEq priceArea .undefined || strictEq priceArea .null then s
  else
    let featureColor := getColor js priceArea
    if featureColor = color then s.addShape layer else s.removeShape layer

/-- The function `filterShapesByColor(color)`. -/
def filterShapesByColor (js : JSBuiltins) (color : String) (s : Dashboard) : Dashboard :=
  s.allLayers.foldl (filterShape js color) s

/-- The function `resetLayers()`.  The re-append of the first child of the
overlay pane only reorders DOM nodes and is not part of the state; the
`zoomend` that `setView` may fire finds the cluster group off the map, so its
handlers return at their guards. -/
def resetLayers (s : Dashboard) : Dashboard :=
  let s1 := s.allLayers.foldl
    (fun st layer => if !st.shapeOnMap layer then st.addShape layer else st) s
  let s2 := if s1.trainLayer && s1.trainOnMap then { s1 with trainOnMap := false } else s1
  let s3 :=
    if s2.busStopsLayer.isSome && s2.busStopsOnMap then { s2 with busStopsOnMap := false }
    else s2
  let s4 := if s3.clusterOnMap then { s3 with clusterOnMap := false } else s3
  let s5 :=
    if s4.districtLayer then
      (if !s4.districtOnMap then { s4 with districtOnMap := true } else s4)
    else s4
  { s5 with center := (48.1552, 11.5650), zoom := 11.60, transportLegend := false }

/-! ## Stop visibility by zoom (`setBusStopsLayerVisibility`) -/

/-- The constant `STOP_TYPES.TRAIN_STATION`. -/
def STOP_TYPES.TRAIN_STATION : String := "railway_station"

/-- The constant `STOP_TYPES.TRAM_STOP`. -/
def STOP_TYPES.TRAM_STOP : String := "tram_stop"

/-- The constant `STOP_TYPES.BUS_STOP`. -/
def STOP_TYPES.BUS_STOP : String := "bus_stop"

/-- The constant `STOP_TYPES.DEFAULT_STOP`. -/
def STOP_TYPES.DEFAULT_STOP : String := "default_stop"

/-- The table `ZOOM_LEVELS`; a key that is not in it reads as `undefined`. -/
def ZOOM_LEVELS (key : String) : JSValue :=
  if key = STOP_TYPES.TRAIN_STATION then .num (.fin 11)
  else if key = STOP_TYPES.TRAM_STOP then .num (.fin 11)
  else if key = STOP_TYPES.BUS_STOP then .num (.fin 11)
  else if key = STOP_TYPES.DEFAULT_STOP then .num (.fin 16)
  else .undefined

/-- The local `stopType`: `fclass || STOP_TYPES.DEFAULT_STOP`. -/
def stopTypeOf (stop : StopMarker) : JSValue :=
  if truthy stop.fclass then stop.fclass else .str STOP_TYPES.DEFAULT_STOP

/-- The local `isVisible` computed by the `switch` in
`setBusStopsLayerVisibility`. -/
def isVisible (js : JSBuiltins) (zoomLevel : ℚ) (stop : StopMarker) : Bool :=
  let stopType := stopTypeOf stop
  if strictEq stopType (.str STOP_TYPES.TRAIN_STATION) then
    JSNum.ge (.fin zoomLevel) (toNumber js (ZOOM_LEVELS STOP_TYPES.TRAIN_STATION))
  else if strictEq stopType (.str STOP_TYPES.TRAM_STOP) then
    JSNum.ge (.fin zoomLevel) (toNumber js (ZOOM_LEVELS STOP_TYPES.TRAM_STOP))
  else if strictEq stopType (.str STOP_TYPES.BUS_STOP) then
    JSNum.ge (.fin zoomLevel) (toNumber js (ZOOM_LEVELS STOP_TYPES.BUS_STOP))
  else
    JSNum.ge (.fin zoomLevel) (toNumber js (ZOOM_LEVELS STOP_TYPES.DEFAULT_STOP))

/-- The cluster settings chosen from the zoom level. -/
def clusterOptionsAt (zoomLevel : ℚ) : ClusterOptions :=
  if zoomLevel < 12 then { maxClusterRadius := .constant 100, disableClusteringAtZoom := 16 }
  else if zoomLevel < 14 then { maxClusterRadius := .constant 80, disableClusteringAtZoom := 18 }
  else { maxClusterRadius := .constant 60, disableClusteringAtZoom := 20 }

/-- The body of the `busStops.forEach` callback. -/
def updateStop (js : JSBuiltins) (zoomLevel : ℚ) (s : Dashboard) (stop : StopMarker) :
    Dashboard :=
  if isVisible js zoomLevel stop then s.addToCluster stop else s.removeFromCluster stop

/-- The function `setBusStopsLayerVisibility(zoomLevel)`. -/
def setBusStopsLayerVisibility (js : JSBuiltins) (zoomLevel : ℚ) (s : Dashboard) : Dashboard :=
  match s.busStopsLayer with
  | none => s
  | some busStops =>
    if !s.clusterOnMap then s
    else if busStops.length = 0 then s
    else
      let s1 := { s with clusterOptions := clusterOptionsAt zoomLevel }
      busStops.foldl (updateStop js zoomLevel) s1

/-- A `zoomend` event at zoom `z`: the handler installed at script start
(guarded by `map.hasLayer(busStopsLayer)`), then the one installed by
`loadBusStopsLayer`, each reading `map.getZoom()`. -/
def zoomend (js : JSBuiltins) (z : ℚ) (s : Dashboard) : Dashboard :=
  let s0 := { s with zoom := z }
  let s1 :=
    if s0.busStopsLayer.isSome && s0.busStopsOnMap then setBusStopsLayerVisibility js z s0
    else s0
  if s1.stopsZoomHandler then setBusStopsLayerVisibility js z s1 else s1

/-- The markers that a call of `setBusStopsLayerVisibility` walks through:
those of `busStopsLayer` when both guards pass, none otherwise. -/
def visibilityStops (s : Dashboard) : List StopMarker :=
  match s.busStopsLayer with
  | some stops => if s.clusterOnMap then stops else []
  | none => []

/-- The markers that a `zoomend` event walks through: those of
`visibilityStops` when at least one of the two handlers makes the call. -/
def activeStops (s : Dashboard) : List StopMarker :=
  if s.busStopsOnMap || s.stopsZoomHandler then visibilityStops s else []

/-- Specification side of the visibility policy: the minimum zoom of a stop
category, 11 for train station, tram stop and bus stop, 16 for a missing or
unrecognised category. -/
def minimumZoom (fclass : JSValue) : ℚ :=
  if fclass = .str "railway_station" ∨ fclass = .str "tram_stop" ∨ fclass = .str "bus_stop"
  then 11 else 16

/-! ## Cluster icons (`iconCreateFunction`) -/

/-- The parts of the `divIcon` that `iconCreateFunction` computes. -/
structure ClusterIcon where
  iconUrl : String
  backgroundColor : String
  borderColor : String
  textColor : String
  fontSize : ℚ
  textShadow : String
  label : Nat
  iconSize : ℚ × ℚ
  iconAnchor : ℚ × ℚ
  deriving DecidableEq

/-- The function `iconCreateFunction(cluster)`, given the markers that
`cluster.getAllChildMarkers()` returns; `getChildCount()` is their number. -/
def iconCreateFunction (childMarkers : List StopMarker) : ClusterIcon :=
  let types := childMarkers.map (fun marker => marker.fclass)
  let count : ℚ := childMarkers.length
  let iconUrl :=
    if types.contains (.str "railway_station") then "Symbols/train_station.png"
    else if types.contains (.str "tram_stop") then "Symbols/tram_stop.png"
    else if types.contains (.str "bus_stop") then "Symbols/bus_stop.png"
    else "Symbols/default_stop.png"
  let size := min (40 + count * 2) 60
  let color := getClusterColor count
  { iconUrl := iconUrl
    backgroundColor := color
    borderColor := if count > 10 then "#333" else "#666"
    textColor := if count > 10 then "#fff" else "#333"
    fontSize := min (14 + count / 2) 18
    textShadow :=
      if count > 10 then "0 1px 1px rgba(0,0,0,0.3)" else "0 1px 1px rgba(255,255,255,0.5)"
    label := childMarkers.length
    iconSize := (size + 10, size + 10)
    iconAnchor := ((size + 10) / 2, (size + 10) / 2) }

/-- Specification side of "at least one member is of the category": some
child marker carries that `fclass`. -/
def hasCategory (childMarkers : List StopMarker) (category : String) : Prop :=
  ∃ m ∈ childMarkers, m.fclass = .str category

/-! ## Clustering radius (`maxClusterRadius`) -/

/-- The option `maxClusterRadius` that `markerCluster` is constructed with. -/
def maxClusterRadius (zoom : ℚ) : ℚ :=
  if zoom < 12 then 80
  else if zoom < 14 then 60
  else if zoom < 16 then 40
  else 30

/-- The clustering radius that the configured option yields at a zoom: the
option is called when it is the construction-time function and taken as it is
when it is a number. -/
def MaxClusterRadius.radiusAt : MaxClusterRadius → ℚ → ℚ
  | .zoomFunction, zoom => maxClusterRadius zoom
  | .constant r, _ => r

/-- The options `markerCluster` is constructed with. -/
def constructionOptions : ClusterOptions :=
  { maxClusterRadius := .zoomFunction, disableClusteringAtZoom := 16 }

/-! ## Loading (`loadGeoJSON` and its three callbacks, `createLayerControl`) -/

/-- Behaviour of the Leaflet library that the script relies on without
defining it, taken as a parameter. -/
structure Leaflet where
  /-- Whether the constructor `L.control.layers` throws when an overlay value
  is `null`. -/
  controlRejectsNull : Bool

/-- The layers that can be offered in the overlay control. -/
inductive OverlayLayer where
  | trainLayer
  | markerCluster
  deriving DecidableEq

/-- The state of the page: the dashboard state, the variable `layerControl`
(`none` is undefined, otherwise the `overlayMaps` it was built from, a `none`
value being `null`), and the messages written by `console.error`. -/
structure App where
  dash : Dashboard
  layerControl : Option (List (String × Option OverlayLayer))
  errors : List String

/-- The state when the script has run and no file has arrived yet. -/
def initialApp : App where
  dash :=
    { highlightedLayer := none
      allLayers := []
      style := fun _ => { fillColor := "", weight := 2, color := "white", fillOpacity := 0.7 }
      shapeOnMap := fun _ => false
      trainLayer := false
      busStopsLayer := none
      districtLayer := false
      trainOnMap := false
      busStopsOnMap := false
      clusterOnMap := false
      districtOnMap := false
      clusterMembers := fun _ => false
      clusterOptions := constructionOptions
      stopsZoomHandler := false
      center := (48.1552, 11.5650)
      zoom := 11.60
      transportLegend := false }
  layerControl := none
  errors := []

/-- The function `createLayerControl()`: the state afterwards and the
exception thrown, if any. -/
def createLayerControl (lib : Leaflet) (a : App) : App × Option String :=
  if a.layerControl.isSome then (a, none)
  else
    let overlayMaps : List (String × Option OverlayLayer) :=
      [("Train Network", if a.dash.trainLayer then some .trainLayer else none),
       ("Transport Stops/Stations", some .markerCluster)]
    if lib.controlRejectsNull && overlayMaps.any (fun entry => entry.2.isNone) then
      (a, some "TypeError")
    else ({ a with layerControl := some overlayMaps }, none)

/-- The function `loadDistrictData(geojsonData)`, the data given as the shapes
that `L.geoJSON` creates, in feature order. -/
def loadDistrictData (js : JSBuiltins) (geojsonData : List DistrictLayer) (a : App) :
    App × Option String :=
  ({ a with dash :=
      { a.dash with
        allLayers := a.dash.allLayers ++ geojsonData
        style := fun l =>
          if l ∈ geojsonData then
            { fillColor := getColor js l.price_area, weight := 2, color := "white",
              fillOpacity := 0.7 }
          else a.dash.style l
        shapeOnMap := fun l => if l ∈ geojsonData then true else a.dash.shapeOnMap l
        districtLayer := true
        districtOnMap := true } }, none)

/-- The function `loadTrainNetworkLayer(geojsonData)`. -/
def loadTrainNetworkLayer (lib : Leaflet) (a : App) : App × Option String :=
  createLayerControl lib { a with dash := { a.dash with trainLayer := true } }

/-- The method `String.prototype.replace` with a one-character pattern and
replacement: only the first occurrence is replaced. -/
def replaceFirstChar (pattern replacement : Char) : List Char → List Char
  | [] => []
  | c :: cs =>
    if c = pattern then replacement :: cs else c :: replaceFirstChar pattern replacement cs

/-- The circle marker that `pointToLayer` creates, with the two values
interpolated into its popup. -/
structure StopCircle where
  feature : StopMarker
  radius : ℚ
  fillColor : String
  color : String
  weight : ℚ
  opacity : ℚ
  fillOpacity : ℚ
  popupName : JSValue
  popupType : String
  deriving DecidableEq

/-- The marker built by the `pointToLayer` callback of `loadBusStopsLayer`,
or the exception thrown while building it: `fclass.replace` is a call on a
string method, so it throws on any `fclass` that is not a string. -/
def stopCircle (feature : StopMarker) : Except String StopCircle :=
  let color :=
    if strictEq feature.fclass (.str "bus_stop") then "#2d5fea"
    else if strictEq feature.fclass (.str "tram_stop") then "#00F539"
    else if strictEq feature.fclass (.str "railway_station") then "red"
    else "gray"
  match feature.fclass with
  | .str fclass =>
    .ok
      { feature := feature
        radius := 8
        fillColor := color
        color := "white"
        weight := 2
        opacity := 0.9
        fillOpacity := 1
        popupName := if truthy feature.name then feature.name else .str "Transport Stop"
        popupType := String.mk (replaceFirstChar '_' ' ' fclass.data) }
  | _ => .error "TypeError"

/-- The `pointToLayer` callback of `loadBusStopsLayer`: the marker is built,
added to the cluster group and returned. -/
def pointToLayer (feature : StopMarker) (s : Dashboard) : Except String (StopCircle × Dashboard) :=
  match stopCircle feature with
  | .ok marker => .ok (marker, s.addToCluster feature)
  | .error e => .error e

/-- The walk of `L.geoJSON` over the stop features: the state afterwards and
the exception that ended the walk, if any. -/
def addStopFeatures : List StopMarker → Dashboard → Dashboard × Option String
  | [], s => (s, none)
  | feature :: rest, s =>
    match pointToLayer feature s with
    | .ok (_, s1) => addStopFeatures rest s1
    | .error e => (s, some e)

/-- The function `loadBusStopsLayer(geojsonData)`: the state afterwards and
the exception thrown, if any. -/
def loadBusStopsLayer (lib : Leaflet) (js : JSBuiltins) (geojsonData : List StopMarker)
    (a : App) : App × Option String :=
  match addStopFeatures geojsonData a.dash with
  | (d, some e) => ({ a with dash := d }, some e)
  | (d, none) =>
    let d1 := { d with busStopsLayer := some geojsonData }
    let d2 := geojsonData.foldl Dashboard.addToCluster d1
    match createLayerControl lib { a with dash := d2 } with
    | (a3, some e) => (a3, some e)
    | (a3, none) =>
      let d4 := setBusStopsLayerVisibility js a3.dash.zoom a3.dash
      ({ a3 with dash := { d4 with stopsZoomHandler := true } }, none)

/-- The function `loadGeoJSON(filePath, callback)` once the file is fetched
and parsed: the callback runs, and an exception it throws is caught and
logged. -/
def loadGeoJSON (filePath : String) (callback : App → App × Option String) (a : App) : App :=
  match callback a with
  | (a1, none) => a1
  | (a1, some _) => { a1 with errors := a1.errors ++ ["Error loading GeoJSON from " ++ filePath] }

/-- The three files of `loadData`. -/
inductive LoadEvent where
  | district
  | train
  | stops
  deriving DecidableEq

/-- The completion of one load of `loadData`. -/
def loadStep (lib : Leaflet) (js : JSBuiltins) (districts : List DistrictLayer)
    (stops : List StopMarker) (a : App) : LoadEvent → App
  | .district => loadGeoJSON "Park/munich_layer.geojson" (loadDistrictData js districts) a
  | .train => loadGeoJSON "Park/Train_network.geojson" (loadTrainNetworkLayer lib) a
  | .stops => loadGeoJSON "Park/Transport.geojson" (loadBusStopsLayer lib js stops) a

/-- The loads of `loadData` completing in a given order, from the initial
state. -/
def runLoads (lib : Leaflet) (js : JSBuiltins) (districts : List DistrictLayer)
    (stops : List StopMarker) (order : List LoadEvent) : App :=
  order.foldl (loadStep lib js districts stops) initialApp

/-- The overlay control that the claim of load-order independence expects:
the train layer under `Train Network` and the cluster group under
`Transport Stops/Stations`. -/
def expectedOverlays : List (String × Option OverlayLayer) :=
  [("Train Network", some .trainLayer), ("Transport Stops/Stations", some .markerCluster)]

/-- A tick of the box of overlay `name` in the overlay control: Leaflet adds
the layer stored under that name to the map, and the `overlayadd` handler that
`createLayerControl` registers shows the transport part of the legend when the
name is `Transport Stops/Stations`. -/
def overlayadd (name : String) (a : App) : App :=
  match a.layerControl with
  | none => a
  | some overlayMaps =>
    match overlayMaps.lookup name with
    | some (some .markerCluster) =>
      { a with dash :=
          { a.dash with
            clusterOnMap := true
            transportLegend :=
              if name = "Transport Stops/Stations" then true else a.dash.transportLegend } }
    | some (some .trainLayer) => { a with dash := { a.dash with trainOnMap := true } }
    | _ => a

/-! ## Sample data -/

/-- A district with price 15.5 (pale yellow bucket). -/
def districtA : DistrictLayer := { id := 1, price_area := .num (.fin 15.5), plz := .str "80331" }

/-- A district with price 19.2 (light orange bucket). -/
def districtB : DistrictLayer := { id := 2, price_area := .num (.fin 19.2), plz := .str "80333" }

/-- A district whose feature has no `price_area` property. -/
def districtNoPrice : DistrictLayer := { id := 3, price_area := .undefined, plz := .str "80335" }

/-- A train station marker. -/
def stopTrain : StopMarker := { id := 11, fclass := .str "railway_station", name := .str "Hbf" }

/-- A tram stop marker. -/
def stopTram : StopMarker := { id := 12, fclass := .str "tram_stop", name := .str "Stachus" }

/-- A bus stop marker. -/
def stopBus : StopMarker := { id := 13, fclass := .str "bus_stop", name := .undefined }

/-- A marker with a category the script does not know. -/
def stopOther : StopMarker := { id := 14, fclass := .str "taxi", name := .str "Taxi" }

/-- The dashboard once the three files are loaded and the stop overlay is
switched on: three district shapes in their default style, all on the map, and
four stops in the cluster group. -/
def sampleDashboard : Dashboard where
  highlightedLayer := none
  allLayers := [districtA, districtB, districtNoPrice]
  style := fun l =>
    { fillColor := getColor exactRuntime l.price_area, weight := 2, color := "white",
      fillOpacity := 0.7 }
  shapeOnMap := fun l => decide (l ∈ [districtA, districtB, districtNoPrice])
  trainLayer := true
  busStopsLayer := some [stopTrain, stopTram, stopBus, stopOther]
  districtLayer := true
  trainOnMap := false
  busStopsOnMap := false
  clusterOnMap := true
  districtOnMap := true
  clusterMembers := fun m => decide (m ∈ [stopTrain, stopTram, stopBus, stopOther])
  clusterOptions := { maxClusterRadius := .zoomFunction, disableClusteringAtZoom := 16 }
  stopsZoomHandler := true
  center := (48.1552, 11.5650)
  zoom := 11.60
  transportLegend := true

/-- A stop feature without the `fclass` property. -/
def stopNoClass : StopMarker := { id := 15, fclass := .undefined, name := .str "Depot" }

/-- The sample dashboard with a stop layer that was loaded from a file without
features. -/
def emptyStopsDashboard : Dashboard := { sampleDashboard with busStopsLayer := some [] }

/-- A library in which `L.control.layers` throws on a `null` overlay. -/
def strictLeaflet : Leaflet := { controlRejectsNull := true }

/-- A library in which `L.control.layers` stores a `null` overlay as it is. -/
def lenientLeaflet : Leaflet := { controlRejectsNull := false }

/-- The shapes of a district file with three features. -/
def sampleDistricts : List DistrictLayer := [districtA, districtB, districtNoPrice]

/-- The features of a stop file with four stops. -/
def sampleStops : List StopMarker := [stopTrain, stopTram, stopBus, stopOther]

/-- The dashboard after start-up: the district, train and stop files have
arrived in this order and the user has ticked the stop overlay. -/
def startedDashboard : Dashboard :=
  (overlayadd "Transport Stops/Stations"
    (runLoads strictLeaflet exactRuntime sampleDistricts sampleStops
      [.district, .train, .stops])).dash

/-! # Theorems -/

/-! ## Rent calculator -/

/-- The text built by the template literal in `calculateBaseRent` is never the
no-match message. -/
theorem euro_ne_noMatch (s : String) : "€ " ++ s ≠ "No matches found." := by
  intro h
  have h2 := congrArg String.data h
  simp [String.data_append] at h2

/-- The filter predicate holds exactly when all eight `==` tests do. -/
theorem rowMatches_iff (js : JSBuiltins) (inputs : RentQuery) (row : RentRow) :
    rowMatches js inputs row = true ↔
      (looseEq js row.newlyConst inputs.newlyConst = true ∧
       looseEq js row.balcony inputs.balcony = true ∧
       looseEq js row.lift inputs.lift = true ∧
       looseEq js row.garden inputs.garden = true ∧
       looseEq js row.serviceCharge inputs.serviceCharge = true ∧
       looseEq js row.livingSpace inputs.livingSpace = true ∧
       looseEq js row.noRooms inputs.noRooms = true ∧
       looseEq js row.postal_code inputs.postal_code = true) := by
  simp [rowMatches, and_assoc]

/-- C1: `calculateBaseRent` returns the no-match message if and only if no row
of the dataset equals the query (under the `==` of the source) on all eight
fields at once; and a row that differs from the query in any one field is
never among the matching rows. -/
theorem calculateBaseRent_noMatch_iff (js : JSBuiltins) (dataset : List RentRow)
    (inputs : RentQuery) :
    (calculateBaseRent js dataset inputs = "No matches found." ↔
      ¬ ∃ row ∈ dataset,
        looseEq js row.newlyConst inputs.newlyConst = true ∧
        looseEq js row.balcony inputs.balcony = true ∧
        looseEq js row.lift inputs.lift = true ∧
        looseEq js row.garden inputs.garden = true ∧
        looseEq js row.serviceCharge inputs.serviceCharge = true ∧
        looseEq js row.livingSpace inputs.livingSpace = true ∧
        looseEq js row.noRooms inputs.noRooms = true ∧
        looseEq js row.postal_code inputs.postal_code = true) ∧
    (∀ row : RentRow,
        (looseEq js row.newlyConst inputs.newlyConst = false ∨
         looseEq js row.balcony inputs.balcony = false ∨
         looseEq js row.lift inputs.lift = false ∨
         looseEq js row.garden inputs.garden = false ∨
         looseEq js row.serviceCharge inputs.serviceCharge = false ∨
         looseEq js row.livingSpace inputs.livingSpace = false ∨
         looseEq js row.noRooms inputs.noRooms = false ∨
         looseEq js row.postal_code inputs.postal_code = false) →
        row ∉ matchingRows js dataset inputs) := by
  constructor
  · unfold calculateBaseRent
    by_cases h : (matchingRows js dataset inputs).length = 0
    · simp only [h, if_true, true_iff]
      rintro ⟨row, hmem, hrow⟩
      have hin : row ∈ matchingRows js dataset inputs :=
        List.mem_filter.mpr ⟨hmem, (rowMatches_iff js inputs row).mpr hrow⟩
      rw [List.length_eq_zero] at h
      rw [h] at hin
      exact absurd hin (List.not_mem_nil _)
    · simp only [h, if_false]
      constructor
      · intro hs
        exact absurd hs (euro_ne_noMatch _)
      · intro hnone
        exfalso
        apply h
        rw [List.length_eq_zero, List.eq_nil_iff_forall_not_mem]
        intro row hrow
        have hf := List.mem_filter.mp hrow
        exact hnone ⟨row, hf.1, (rowMatches_iff js inputs row).mp hf.2⟩
  · intro row hdiff hmem
    have h := (rowMatches_iff js inputs row).mp (List.mem_filter.mp hmem).2
    simp [h.1, h.2.1, h.2.2.1, h.2.2.2.1, h.2.2.2.2.1, h.2.2.2.2.2.1, h.2.2.2.2.2.2.1,
      h.2.2.2.2.2.2.2] at hdiff

/-- The bound on divisions in `decimalDigitsAux` does not matter once it is at
least the number itself. -/
theorem decimalDigitsAux_fuel : ∀ (fuel fuel2 n : Nat), n ≤ fuel → n ≤ fuel2 →
    decimalDigitsAux fuel n = decimalDigitsAux fuel2 n := by
  intro fuel
  induction fuel with
  | zero =>
    intro fuel2 n h _
    have hn : n = 0 := by omega
    subst hn
    cases fuel2 <;> simp [decimalDigitsAux]
  | succ k ih =>
    intro fuel2 n h h2
    cases fuel2 with
    | zero =>
      have hn : n = 0 := by omega
      subst hn
      simp [decimalDigitsAux]
    | succ k2 =>
      simp only [decimalDigitsAux]
      split
      · rfl
      · rw [ih k2 (n / 10) (by omega) (by omega)]

/-- A number below ten is written with its single digit. -/
theorem decimalDigits_lt (n : Nat) (h : n < 10) : decimalDigits n = [Nat.digitChar n] := by
  unfold decimalDigits
  cases n with
  | zero => rfl
  | succ m => simp [decimalDigitsAux, h]

/-- From ten upwards the last digit is written after the digits of the
tenfold smaller number. -/
theorem decimalDigits_ge (n : Nat) (h : 10 ≤ n) :
    decimalDigits n = decimalDigits (n / 10) ++ [Nat.digitChar (n % 10)] := by
  unfold decimalDigits
  cases n with
  | zero => omega
  | succ m =>
    simp only [decimalDigitsAux]
    rw [if_neg (by omega), decimalDigitsAux_fuel m ((m + 1) / 10) _ (by omega) (by omega)]

/-- Every number is written with at least one digit. -/
theorem decimalDigits_length_pos (n : Nat) : 0 < (decimalDigits n).length := by
  by_cases h : n < 10
  · simp [decimalDigits_lt n h]
  · rw [decimalDigits_ge n (by omega)]; simp

/-- With two fraction digits, the padding and splitting steps of `toFixed`
yield the digits of `n / 100`, a point, and the last two digits of `n`. -/
theorem fixedDigits_two (n : Nat) :
    fixedDigits 2 n =
      decimalDigits (n / 100) ++ ['.', Nat.digitChar (n / 10 % 10), Nat.digitChar (n % 10)] := by
  have hz : Nat.digitChar 0 = '0' := rfl
  unfold fixedDigits
  by_cases h1 : n < 10
  · have e0 : n / 100 = 0 := by omega
    have e1 : n / 10 % 10 = 0 := by omega
    have e2 : n % 10 = n := by omega
    rw [e0, e1, e2, decimalDigits_lt n h1, decimalDigits_lt 0 (by omega), hz]
    simp [List.replicate]
  · by_cases h2 : n < 100
    · have e0 : n / 100 = 0 := by omega
      have e1 : n / 10 % 10 = n / 10 := by omega
      rw [e0, e1, decimalDigits_ge n (by omega), decimalDigits_lt (n / 10) (by omega),
        decimalDigits_lt 0 (by omega), hz]
      simp [List.replicate]
    · have e0 : n / 10 / 10 = n / 100 := by omega
      rw [decimalDigits_ge n (by omega), decimalDigits_ge (n / 10) (by omega), e0]
      have hp := decimalDigits_length_pos (n / 100)
      simp only [List.append_assoc, List.singleton_append, List.length_append, List.length_cons,
        List.length_nil]
      have hl : ¬ ((decimalDigits (n / 100)).length + (0 + 1 + 1) ≤ 2) := by omega
      simp [hl]

/-- Step 10.a of `toFixed` with two fraction digits is rounding of the
hundredfold value to the nearest integer. -/
theorem roundScaled_two (x : ℚ) : roundScaled 2 x = (round (x * 100)).toNat := by
  unfold roundScaled
  rw [round_eq]
  norm_num

/-- The rounded number of hundredths is within half a hundredth of the
value. -/
theorem round_hundredths_close (x : ℚ) (hx : 0 ≤ x) :
    |((round (x * 100)).toNat : ℚ) / 100 - x| ≤ 1 / 200 := by
  have h0 : (0 : ℤ) ≤ round (x * 100) := by
    rw [round_eq]
    apply Int.floor_nonneg.mpr
    positivity
  have hc : (((round (x * 100)).toNat : ℤ) : ℚ) = ((round (x * 100) : ℤ) : ℚ) := by
    rw [Int.toNat_of_nonneg h0]
  have hc2 : ((round (x * 100)).toNat : ℚ) = ((round (x * 100) : ℤ) : ℚ) := by
    rw [← hc]; norm_cast
  rw [hc2]
  have h := abs_sub_round (x * 100)
  rw [abs_le] at h ⊢
  constructor <;> linarith [h.1, h.2]

/-- Below `10^21` in magnitude, `toFixed(2)` writes the value with two decimal
places. -/
theorem toFixed_two (js : JSBuiltins) (q : ℚ) (h : |q| < 10 ^ 21) :
    toFixed js 2 (.fin q) = twoDecimalPlaces q := by
  have hx : (if q < 0 then -q else q) = |q| := by
    split
    · rw [abs_of_neg (by assumption)]
    · rw [abs_of_nonneg (by linarith)]
  simp only [toFixed, twoDecimalPlaces, hx]
  rw [if_neg (not_le.mpr h), fixedDigits_two, roundScaled_two]

/-- The value 1100 written with two decimal places. -/
theorem twoDecimalPlaces_1100 : twoDecimalPlaces 1100 = "1100.00" := by
  have h : round (|(1100 : ℚ)| * 100) = 110000 := by
    rw [abs_of_nonneg (by norm_num)]
    have hc : ((1100 : ℚ) * 100) = ((110000 : ℤ) : ℚ) := by norm_num
    rw [hc, round_intCast]
  simp only [twoDecimalPlaces, h]
  decide

/-- A two-decimal rendering has a point third from the end. -/
theorem twoDecimalPlaces_third_last (x : ℚ) (pre : List Char) (a b c : Char)
    (h : twoDecimalPlaces x = String.mk (pre ++ [a, b, c])) : a = '.' := by
  have h2 := congrArg (fun s => s.data.reverse) h
  simp only [twoDecimalPlaces, String.data_append, List.reverse_append] at h2
  simp at h2
  exact h2.2.2.1.symm

/-- The `reduce` of `calculateBaseRent` adds up the parsed rents when each of
them is a finite number and every partial sum, taken in row order, is a
binary64 value, so that no addition rounds. -/
theorem foldl_add_parseFloat (js : JSBuiltins) :
    ∀ (rows : List RentRow) (rents : List ℚ) (a : ℚ),
      rows.map (fun row => js.parseFloat row.baseRent) = rents.map JSNum.fin →
      (∀ s ∈ rents.scanl (fun x y => x + y) a, isBinary64 s) →
      rows.foldl (fun sum row => JSNum.add sum (js.parseFloat row.baseRent)) (.fin a) =
        .fin (a + rents.sum) := by
  intro rows
  induction rows with
  | nil =>
    intro rents a h _
    cases rents with
    | nil => simp
    | cons r rs => simp at h
  | cons row rows ih =>
    intro rents a h hs
    cases rents with
    | nil => simp at h
    | cons r rs =>
      simp only [List.map_cons, List.cons.injEq] at h
      have hmem : a + r ∈ (r :: rs).scanl (fun x y => x + y) a := by
        rw [List.scanl_cons]
        apply List.mem_cons_of_mem
        cases rs <;> simp [List.scanl]
      have hadd : JSNum.add (.fin a) (.fin r) = .fin (a + r) := hs _ hmem
      have hrest : ∀ s ∈ rs.scanl (fun x y => x + y) (a + r), isBinary64 s := by
        intro s hsm
        apply hs
        rw [List.scanl_cons]
        exact List.mem_cons_of_mem _ hsm
      rw [List.foldl_cons, h.1, hadd, ih rs (a + r) h.2 hrest, List.sum_cons, add_assoc]

/-- With at least one matching row, finite parsed rents, and partial sums and
mean that are binary64 values, the result is the currency symbol followed by
`toFixed(2)` of their arithmetic mean. -/
theorem calculateBaseRent_of_rents (js : JSBuiltins) (dataset : List RentRow)
    (inputs : RentQuery) (rents : List ℚ)
    (hne : matchingRows js dataset inputs ≠ [])
    (hnum : (matchingRows js dataset inputs).map (fun row => js.parseFloat row.baseRent) =
      rents.map JSNum.fin)
    (hsum : ∀ s ∈ rents.scanl (fun x y => x + y) 0, isBinary64 s)
    (hmean : isBinary64 (arithmeticMean rents)) :
    calculateBaseRent js dataset inputs = "€ " ++ toFixed js 2 (.fin (arithmeticMean rents)) := by
  have hlen : (matchingRows js dataset inputs).length = rents.length := by
    have := congrArg List.length hnum
    simpa using this
  have hpos : (matchingRows js dataset inputs).length ≠ 0 := by
    rw [Ne, List.length_eq_zero]; exact hne
  have hq : ((rents.length : ℕ) : ℚ) ≠ 0 := by
    rw [← hlen]; exact_mod_cast hpos
  unfold calculateBaseRent
  simp only [hpos, if_false, totalBaseRent]
  rw [foldl_add_parseFloat js _ rents 0 hnum hsum, hlen]
  have hdiv : JSNum.div (.fin (0 + rents.sum)) (.fin (rents.length : ℚ)) =
      .fin (arithmeticMean rents) := by
    simp only [JSNum.div, hq, if_false, zero_add]
    exact hmean
  rw [hdiv]

/-- C2 (amended): with at least one matching row, when `parseFloat` reads the
`baseRent` of every matching row as a finite number, no binary64 rounding
occurs (every partial sum of the rents in row order and their mean are binary64
values) and the mean is below `10^21` in magnitude, `calculateBaseRent` returns
the currency symbol followed by the arithmetic mean of the rents of exactly the
matching rows, written with two decimal places (the nearest hundredth); a
single matching row yields its own rent to two decimals, and rents 1000 and
1200 yield `1100.00`. -/
theorem calculateBaseRent_mean_two_decimals (js : JSBuiltins) (dataset : List RentRow)
    (inputs : RentQuery) (rents : List ℚ)
    (hne : matchingRows js dataset inputs ≠ [])
    (hnum : (matchingRows js dataset inputs).map (fun row => js.parseFloat row.baseRent) =
      rents.map JSNum.fin)
    (hsum : ∀ s ∈ rents.scanl (fun x y => x + y) 0, isBinary64 s)
    (hmean : isBinary64 (arithmeticMean rents))
    (hsmall : |arithmeticMean rents| < 10 ^ 21) :
    calculateBaseRent js dataset inputs = "€ " ++ twoDecimalPlaces (arithmeticMean rents) ∧
    abs (((round (abs (arithmeticMean rents) * 100)).toNat : ℚ) / 100 -
        abs (arithmeticMean rents)) ≤ 1 / 200 ∧
    (∀ r : ℚ, rents = [r] → calculateBaseRent js dataset inputs = "€ " ++ twoDecimalPlaces r) ∧
    (rents = [1000, 1200] → calculateBaseRent js dataset inputs = "€ 1100.00") := by
  have hmain : calculateBaseRent js dataset inputs =
      "€ " ++ twoDecimalPlaces (arithmeticMean rents) := by
    rw [calculateBaseRent_of_rents js dataset inputs rents hne hnum hsum hmean,
      toFixed_two js _ hsmall]
  refine ⟨hmain, round_hundredths_close _ (abs_nonneg _), ?_, ?_⟩
  · intro r hr
    rw [hmain, hr]
    simp [arithmeticMean]
  · intro hr
    have hm : arithmeticMean rents = 1100 := by
      rw [hr]; norm_num [arithmeticMean]
    rw [hmain, hm, twoDecimalPlaces_1100]
    rfl

/-- Two matching CSV rows with rents 1000 and 1200, read by the concrete
runtime, add up and average without rounding and give `€ 1100.00`. -/
theorem calculateBaseRent_mean_two_decimals_witness :
    matchingRows exactRuntime [sampleRow "1000", sampleRow "1200"] sampleQuery ≠ [] ∧
    (matchingRows exactRuntime [sampleRow "1000", sampleRow "1200"] sampleQuery).map
        (fun row => exactRuntime.parseFloat row.baseRent) = [(1000 : ℚ), 1200].map JSNum.fin ∧
    (∀ s ∈ [(1000 : ℚ), 1200].scanl (fun x y => x + y) 0, isBinary64 s) ∧
    isBinary64 (arithmeticMean [1000, 1200]) ∧
    calculateBaseRent exactRuntime [sampleRow "1000", sampleRow "1200"] sampleQuery =
      "€ 1100.00" :=
  have hsum : ∀ s ∈ [(1000 : ℚ), 1200].scanl (fun x y => x + y) 0, isBinary64 s := by
    intro s hs
    simp only [List.scanl, List.mem_cons, List.mem_singleton, List.not_mem_nil, or_false] at hs
    unfold isBinary64
    rcases hs with rfl | rfl | rfl <;> decide!
  have hmean : isBinary64 (arithmeticMean [1000, 1200]) := by
    unfold isBinary64; decide!
  ⟨by decide!, by decide!, hsum, hmean,
    (calculateBaseRent_mean_two_decimals exactRuntime [sampleRow "1000", sampleRow "1200"]
      sampleQuery [1000, 1200] (by decide!) (by decide!) hsum hmean
      (by norm_num [arithmeticMean])).2.2.2 rfl⟩

/-- A matching row whose `baseRent` cell is empty gives `€ NaN`, and a matching
row whose `baseRent` is `1e21` gives `€ 1e+21`; neither text is a number
written with two decimal places. Two matching rows `1.00` and `1.01` give
`€ 1.00`: the binary64 sum rounds down, while the arithmetic mean of the two
parsed rents written with two decimal places is `1.01`. -/
theorem calculateBaseRent_not_two_decimals :
    (matchingRows exactRuntime [sampleRow ""] sampleQuery = [sampleRow ""] ∧
      calculateBaseRent exactRuntime [sampleRow ""] sampleQuery = "€ NaN" ∧
      ∀ x : ℚ, "€ NaN" ≠ "€ " ++ twoDecimalPlaces x) ∧
    (matchingRows exactRuntime [sampleRow "1e21"] sampleQuery = [sampleRow "1e21"] ∧
      exactRuntime.parseFloat (sampleRow "1e21").baseRent = .fin (10 ^ 21) ∧
      calculateBaseRent exactRuntime [sampleRow "1e21"] sampleQuery = "€ 1e+21" ∧
      ∀ x : ℚ, "€ 1e+21" ≠ "€ " ++ twoDecimalPlaces x) ∧
    (matchingRows exactRuntime [sampleRow "1.00", sampleRow "1.01"] sampleQuery =
        [sampleRow "1.00", sampleRow "1.01"] ∧
      (matchingRows exactRuntime [sampleRow "1.00", sampleRow "1.01"] sampleQuery).map
          (fun row => exactRuntime.parseFloat row.baseRent) =
        [JSNum.fin 1, JSNum.fin (4548635623644201 / 4503599627370496)] ∧
      twoDecimalPlaces (arithmeticMean [1, 4548635623644201 / 4503599627370496]) = "1.01" ∧
      calculateBaseRent exactRuntime [sampleRow "1.00", sampleRow "1.01"] sampleQuery =
        "€ 1.00") := by
  refine ⟨⟨by decide!, by decide!, ?_⟩, ⟨by decide!, by decide!, by decide!, ?_⟩,
    ⟨by decide!, by decide!, by decide!, by decide!⟩⟩
  · intro x h
    have h2 : twoDecimalPlaces x = String.mk ([] ++ ['N', 'a', 'N']) := by
      have h3 := congrArg (fun s => String.mk (s.data.drop 2)) h
      simpa [String.data_append] using h3.symm
    have h4 := twoDecimalPlaces_third_last x _ _ _ _ h2
    simp at h4
  · intro x h
    have h2 : twoDecimalPlaces x = String.mk (['1', 'e'] ++ ['+', '2', '1']) := by
      have h3 := congrArg (fun s => String.mk (s.data.drop 2)) h
      simpa [String.data_append] using h3.symm
    have h4 := twoDecimalPlaces_third_last x _ _ _ _ h2
    simp at h4

/-! ## Colour scales -/

/-- On a finite number `getColor` is the cascade of its five comparisons. -/
theorem getColor_fin (js : JSBuiltins) (v : ℚ) :
    getColor js (.num (.fin v)) =
      if v < 10.98 then "#FFFFFF"
      else if v ≤ 18.14 then "#FFEDA0"
      else if v ≤ 20.87 then "#FEB24C"
      else if v ≤ 24.44 then "#FD8D3C"
      else if v ≤ 28.30 then "#E31A1C"
      else "#808080" := by
  simp only [getColor, strictEq, ltLit, leLit, toNumber, JSNum.lt, JSNum.le, Bool.not_eq_true',
    decide_eq_true_eq, decide_eq_false_iff_not, not_lt, Bool.false_eq_true, if_false]

/-- C3: `getColor` follows the fixed threshold table on every number (white
below 10.98, pale yellow on [10.98, 18.14], light orange on (18.14, 20.87],
orange on (20.87, 24.44], red on (24.44, 28.30], gray above 28.30), returns
gray for the not-a-number sentinel, and returns one of the six colours on
every value. -/
theorem getColor_threshold_table (js : JSBuiltins) (v : ℚ) :
    (v < 10.98 → getColor js (.num (.fin v)) = "#FFFFFF") ∧
    (10.98 ≤ v ∧ v ≤ 18.14 → getColor js (.num (.fin v)) = "#FFEDA0") ∧
    (18.14 < v ∧ v ≤ 20.87 → getColor js (.num (.fin v)) = "#FEB24C") ∧
    (20.87 < v ∧ v ≤ 24.44 → getColor js (.num (.fin v)) = "#FD8D3C") ∧
    (24.44 < v ∧ v ≤ 28.30 → getColor js (.num (.fin v)) = "#E31A1C") ∧
    (28.30 < v → getColor js (.num (.fin v)) = "#808080") ∧
    getColor js (.num .negInf) = "#FFFFFF" ∧
    getColor js (.num .posInf) = "#808080" ∧
    getColor js (.str "NaN") = "#808080" ∧
    getColor js (.num .nan) = "#808080" ∧
    (∀ value : JSValue, getColor js value ∈
      ["#FFFFFF", "#FFEDA0", "#FEB24C", "#FD8D3C", "#E31A1C", "#808080"]) := by
  rw [getColor_fin]
  refine ⟨?_, ?_, ?_, ?_, ?_, ?_, ?_, ?_, ?_, ?_, ?_⟩
  · intro h; rw [if_pos h]
  · rintro ⟨h1, h2⟩; rw [if_neg (not_lt.mpr h1), if_pos h2]
  · rintro ⟨h1, h2⟩
    rw [if_neg (by linarith), if_neg (by linarith), if_pos h2]
  · rintro ⟨h1, h2⟩
    rw [if_neg (by linarith), if_neg (by linarith), if_neg (by linarith), if_pos h2]
  · rintro ⟨h1, h2⟩
    rw [if_neg (by linarith), if_neg (by linarith), if_neg (by linarith), if_neg (by linarith),
      if_pos h2]
  · intro h1
    rw [if_neg (by linarith), if_neg (by linarith), if_neg (by linarith), if_neg (by linarith),
      if_neg (by linarith)]
  · simp [getColor, strictEq, ltLit, toNumber, JSNum.lt]
  · simp [getColor, strictEq, ltLit, leLit, toNumber, JSNum.lt, JSNum.le]
  · simp [getColor, strictEq]
  · simp [getColor, strictEq, ltLit, leLit, toNumber, JSNum.lt, JSNum.le]
  · intro value
    unfold getColor
    repeat' split
    all_goals simp

/-- On a natural number `getClusterColor` is the cascade of its five
comparisons. -/
theorem getClusterColor_nat (n : ℕ) :
    getClusterColor (n : ℚ) =
      if 50 < n then "#8c2d04"
      else if 20 < n then "#d94801"
      else if 10 < n then "#f16913"
      else if 5 < n then "#fd8d3c"
      else if 2 < n then "#fdae6b"
      else "#feedde" := by
  have h50 : ((n : ℚ) > 50) ↔ 50 < n := by
    constructor <;> intro h <;> exact_mod_cast h
  have h20 : ((n : ℚ) > 20) ↔ 20 < n := by
    constructor <;> intro h <;> exact_mod_cast h
  have h10 : ((n : ℚ) > 10) ↔ 10 < n := by
    constructor <;> intro h <;> exact_mod_cast h
  have h5 : ((n : ℚ) > 5) ↔ 5 < n := by
    constructor <;> intro h <;> exact_mod_cast h
  have h2 : ((n : ℚ) > 2) ↔ 2 < n := by
    constructor <;> intro h <;> exact_mod_cast h
  simp only [getClusterColor, h50, h20, h10, h5, h2]

/-- The highest threshold strictly below a count, range by range. -/
theorem highestThresholdBelow_eq (n : ℕ) :
    highestThresholdBelow n =
      if 50 < n then some 50
      else if 20 < n then some 20
      else if 10 < n then some 10
      else if 5 < n then some 5
      else if 2 < n then some 2
      else none := by
  unfold highestThresholdBelow
  by_cases h50 : 50 < n
  · have h : 2 < n ∧ 5 < n ∧ 10 < n ∧ 20 < n := by omega
    simp [List.filter, h50, h.1, h.2.1, h.2.2.1, h.2.2.2, List.max?]
  · by_cases h20 : 20 < n
    · have h : 2 < n ∧ 5 < n ∧ 10 < n := by omega
      simp [List.filter, h50, h20, h.1, h.2.1, h.2.2, List.max?]
    · by_cases h10 : 10 < n
      · have h : 2 < n ∧ 5 < n := by omega
        simp [List.filter, h50, h20, h10, h.1, h.2, List.max?]
      · by_cases h5 : 5 < n
        · have h : 2 < n := by omega
          simp [List.filter, h50, h20, h10, h5, h, List.max?]
        · by_cases h2 : 2 < n
          · simp [List.filter, h50, h20, h10, h5, h2, List.max?]
          · simp [List.filter, h50, h20, h10, h5, h2, List.max?]

/-! ## Highlighting -/

/-- After `highlightShape(layer)` the pointer holds `layer`. -/
theorem highlightShape_highlightedLayer (layer : DistrictLayer) (s : Dashboard) :
    (highlightShape layer s).highlightedLayer = some layer := rfl

/-- The call `highlightShape` leaves `allLayers` alone. -/
theorem highlightShape_allLayers (layer : DistrictLayer) (s : Dashboard) :
    (highlightShape layer s).allLayers = s.allLayers := by
  unfold highlightShape
  cases s.highlightedLayer <;> rfl

/-- After `highlightShape(layer)` the target has the highlight style. -/
theorem highlightShape_style_self (layer : DistrictLayer) (s : Dashboard) :
    isHighlightStyle ((highlightShape layer s).style layer) := by
  unfold highlightShape isHighlightStyle
  cases s.highlightedLayer <;> simp [Dashboard.setStyle]

/-- After `highlightShape(layer)` a shape other than the target has the
default style if it was the highlighted one or had the default style before. -/
theorem highlightShape_style_other (layer l : DistrictLayer) (s : Dashboard) (hl : l ≠ layer)
    (h : s.highlightedLayer = some l ∨ isDefaultStyle (s.style l)) :
    isDefaultStyle ((highlightShape layer s).style l) := by
  unfold highlightShape
  cases hh : s.highlightedLayer with
  | none =>
    rcases h with h | h
    · rw [hh] at h; cases h
    · simpa [Dashboard.setStyle, hl] using h
  | some h0 =>
    by_cases hl0 : l = h0
    · subst hl0
      simp [Dashboard.setStyle, hl, isDefaultStyle]
    · rcases h with h | h
      · rw [hh] at h
        exact absurd (Option.some.inj h).symm hl0
      · simpa [Dashboard.setStyle, hl, hl0] using h

/-- The two styles differ (in weight already). -/
theorem highlight_not_default (st : PathStyle) (h : isHighlightStyle st) :
    ¬ isDefaultStyle st := by
  intro hd
  have h1 := h.1
  rw [hd.1] at h1
  norm_num at h1

/-- Invariant of any sequence of `highlightShape` calls: every registered
shape is the highlighted one or has the default style. -/
theorem highlight_fold_inv (targets : List DistrictLayer) :
    ∀ s : Dashboard,
      (∀ l ∈ s.allLayers, s.highlightedLayer = some l ∨ isDefaultStyle (s.style l)) →
      (targets.foldl (fun st t => highlightShape t st) s).allLayers = s.allLayers ∧
      ∀ l ∈ s.allLayers,
        (targets.foldl (fun st t => highlightShape t st) s).highlightedLayer = some l ∨
          isDefaultStyle ((targets.foldl (fun st t => highlightShape t st) s).style l) := by
  induction targets with
  | nil => intro s h; exact ⟨rfl, h⟩
  | cons t ts ih =>
    intro s h
    have hstep : ∀ l ∈ (highlightShape t s).allLayers,
        (highlightShape t s).highlightedLayer = some l ∨
          isDefaultStyle ((highlightShape t s).style l) := by
      intro l hl
      rw [highlightShape_allLayers] at hl
      by_cases hlt : l = t
      · left; rw [hlt]; rfl
      · right; exact highlightShape_style_other t l s hlt (h l hl)
    have hrec := ih (highlightShape t s) hstep
    rw [highlightShape_allLayers] at hrec
    simpa [List.foldl_cons] using hrec

/-- C4: from a state in which every district shape has the default style,
after any non-empty sequence of `highlightShape` calls the pointer holds the
last target, the last target has the highlight style, and among the district
shapes exactly the last target has the highlight style while every other one
has the default style; after `highlight(A)` then `highlight(B)` with `A ≠ B`,
`A` has the default and `B` the highlight style, and after `highlight(A)`
twice `A` is still highlighted. -/
theorem highlightShape_sequence (s : Dashboard) (targets : List DistrictLayer)
    (hne : targets ≠ [])
    (_hnone : s.highlightedLayer = none)
    (hdef : ∀ l ∈ s.allLayers, isDefaultStyle (s.style l)) :
    (targets.foldl (fun st t => highlightShape t st) s).highlightedLayer =
      some (targets.getLast hne) ∧
    isHighlightStyle
      ((targets.foldl (fun st t => highlightShape t st) s).style (targets.getLast hne)) ∧
    (∀ l ∈ s.allLayers,
      (isHighlightStyle ((targets.foldl (fun st t => highlightShape t st) s).style l) ↔
        l = targets.getLast hne) ∧
      (l ≠ targets.getLast hne →
        isDefaultStyle ((targets.foldl (fun st t => highlightShape t st) s).style l))) ∧
    (∀ A B : DistrictLayer, A ≠ B →
      isDefaultStyle ((highlightShape B (highlightShape A s)).style A) ∧
      isHighlightStyle ((highlightShape B (highlightShape A s)).style B)) ∧
    (∀ A : DistrictLayer,
      isHighlightStyle ((highlightShape A (highlightShape A s)).style A)) := by
  obtain ⟨init, last, htl⟩ : ∃ init last, targets = init ++ [last] := by
    rcases List.eq_nil_or_concat targets with h | ⟨i, a, h⟩
    · exact absurd h hne
    · exact ⟨i, a, by simpa using h⟩
  subst htl
  have hlast : (init ++ [last]).getLast hne = last := by simp
  rw [hlast]
  have hinv := highlight_fold_inv init s (fun l hl => Or.inr (hdef l hl))
  simp only [List.foldl_append, List.foldl_cons, List.foldl_nil]
  have hself := highlightShape_style_self last (init.foldl (fun st t => highlightShape t st) s)
  have hother : ∀ l ∈ s.allLayers, l ≠ last → isDefaultStyle
      ((highlightShape last (init.foldl (fun st t => highlightShape t st) s)).style l) :=
    fun l hl hne2 => highlightShape_style_other last l _ hne2 (hinv.2 l hl)
  refine ⟨rfl, hself, ?_, ?_, ?_⟩
  · intro l hl
    refine ⟨⟨fun h => ?_, fun h => by rw [h]; exact hself⟩, hother l hl⟩
    by_contra hne2
    exact highlight_not_default _ h (hother l hl hne2)
  · intro A B hAB
    exact ⟨highlightShape_style_other B A _ hAB (Or.inl rfl), highlightShape_style_self B _⟩
  · intro A
    exact highlightShape_style_self A _

/-- Every shape of the sample dashboard has the default style. -/
theorem sampleDashboard_default :
    ∀ l ∈ sampleDashboard.allLayers, isDefaultStyle (sampleDashboard.style l) := by
  intro l _
  simp [isDefaultStyle, sampleDashboard]

/-- On the sample dashboard, highlighting district A and then district B
leaves B highlighted and A in the default style. -/
theorem highlightShape_sequence_witness :
    [districtA, districtB] ≠ [] ∧
    sampleDashboard.highlightedLayer = none ∧
    (∀ l ∈ sampleDashboard.allLayers, isDefaultStyle (sampleDashboard.style l)) ∧
    isHighlightStyle
      (([districtA, districtB].foldl (fun st t => highlightShape t st) sampleDashboard).style
        districtB) ∧
    isDefaultStyle
      (([districtA, districtB].foldl (fun st t => highlightShape t st) sampleDashboard).style
        districtA) :=
  ⟨by simp, rfl, sampleDashboard_default,
    (highlightShape_sequence sampleDashboard [districtA, districtB] (by simp) rfl
      sampleDashboard_default).2.1,
    ((highlightShape_sequence sampleDashboard [districtA, districtB] (by simp) rfl
      sampleDashboard_default).2.2.1 districtA (by simp [sampleDashboard])).2
      (by decide)⟩

/-! ## Legend filter and reset -/

/-- The test `=== undefined` holds of `undefined` only. -/
theorem strictEq_undefined (v : JSValue) :
    strictEq v .undefined = decide (v = .undefined) := by
  cases v <;> simp [strictEq]

/-- The test `=== null` holds of `null` only. -/
theorem strictEq_null (v : JSValue) : strictEq v .null = decide (v = .null) := by
  cases v <;> simp [strictEq]

/-- One step of the filter loop leaves `allLayers` alone. -/
theorem filterShape_allLayers (js : JSBuiltins) (color : String) (s : Dashboard)
    (layer : DistrictLayer) : (filterShape js color s layer).allLayers = s.allLayers := by
  unfold filterShape
  simp only []
  split
  · rfl
  · split <;> rfl

/-- One step of the filter loop: the visited shape, when it has a price, is on
the map exactly if its colour is the clicked one; nothing else changes. -/
theorem filterShape_shapeOnMap (js : JSBuiltins) (color : String) (s : Dashboard)
    (layer l : DistrictLayer) :
    (filterShape js color s layer).shapeOnMap l =
      if l = layer ∧ l.price_area ≠ .undefined ∧ l.price_area ≠ .null then
        decide (getColor js l.price_area = color)
      else s.shapeOnMap l := by
  simp only [filterShape, strictEq_undefined, strictEq_null]
  by_cases hl : l = layer
  · subst hl
    by_cases h1 : l.price_area = .undefined
    · simp [h1]
    · by_cases h2 : l.price_area = .null
      · simp [h2]
      · by_cases hc : getColor js l.price_area = color
        · simp [h1, h2, hc, Dashboard.addShape]
        · simp [h1, h2, hc, Dashboard.removeShape]
  · by_cases h1 : layer.price_area = .undefined
    · simp [h1, hl]
    · by_cases h2 : layer.price_area = .null
      · simp [h2, hl]
      · by_cases hc : getColor js layer.price_area = color
        · simp [h1, h2, hc, hl, Dashboard.addShape]
        · simp [h1, h2, hc, hl, Dashboard.removeShape]

/-- The filter loop over any list of shapes. -/
theorem foldl_filterShape (js : JSBuiltins) (color : String) (layers : List DistrictLayer) :
    ∀ s : Dashboard,
      (layers.foldl (filterShape js color) s).allLayers = s.allLayers ∧
      ∀ l : DistrictLayer,
        (layers.foldl (filterShape js color) s).shapeOnMap l =
          if l ∈ layers ∧ l.price_area ≠ .undefined ∧ l.price_area ≠ .null then
            decide (getColor js l.price_area = color)
          else s.shapeOnMap l := by
  induction layers with
  | nil => intro s; simp
  | cons a as ih =>
    intro s
    obtain ⟨h1, h2⟩ := ih (filterShape js color s a)
    refine ⟨by rw [List.foldl_cons, h1, filterShape_allLayers], fun l => ?_⟩
    rw [List.foldl_cons, h2 l, filterShape_shapeOnMap]
    by_cases hp : l.price_area ≠ .undefined ∧ l.price_area ≠ .null
    · by_cases hmem : l ∈ as
      · simp [hmem, hp]
      · by_cases hla : l = a
        · simp [hla, hp]
          intro _; subst hla; simp [hp]
        · simp [hmem, hla, hp]
    · have h3 : ¬ (l ∈ a :: as ∧ l.price_area ≠ .undefined ∧ l.price_area ≠ .null) := by tauto
      have h4 : ¬ (l ∈ as ∧ l.price_area ≠ .undefined ∧ l.price_area ≠ .null) := by tauto
      have h5 : ¬ (l = a ∧ l.price_area ≠ .undefined ∧ l.price_area ≠ .null) := by tauto
      rw [if_neg h3, if_neg h4, if_neg h5]

/-- Map membership of every shape after `filterShapesByColor`. -/
theorem filterShapesByColor_shapeOnMap (js : JSBuiltins) (color : String) (s : Dashboard)
    (l : DistrictLayer) :
    (filterShapesByColor js color s).shapeOnMap l =
      if l ∈ s.allLayers ∧ l.price_area ≠ .undefined ∧ l.price_area ≠ .null then
        decide (getColor js l.price_area = color)
      else s.shapeOnMap l :=
  (foldl_filterShape js color s.allLayers s).2 l

/-- The call `filterShapesByColor` leaves `allLayers` alone. -/
theorem filterShapesByColor_allLayers (js : JSBuiltins) (color : String) (s : Dashboard) :
    (filterShapesByColor js color s).allLayers = s.allLayers :=
  (foldl_filterShape js color s.allLayers s).1

/-- C5 (amended): after `filterShapesByColor(c)` a district shape that has a
`price_area` is on the map if and only if `getColor` of its price is `c`; a
shape whose `price_area` is undefined or null keeps its membership; and the
result is the same whatever filter was clicked before. -/
theorem filterShapesByColor_priced_shapes (js : JSBuiltins) (s : Dashboard) (color : String) :
    (∀ l ∈ s.allLayers, l.price_area ≠ .undefined → l.price_area ≠ .null →
      ((filterShapesByColor js color s).shapeOnMap l = true ↔
        getColor js l.price_area = color)) ∧
    (∀ l : DistrictLayer, l.price_area = .undefined ∨ l.price_area = .null →
      (filterShapesByColor js color s).shapeOnMap l = s.shapeOnMap l) ∧
    (∀ earlier : String,
      (filterShapesByColor js color (filterShapesByColor js earlier s)).shapeOnMap =
        (filterShapesByColor js color s).shapeOnMap) ∧
    (filterShapesByColor js color s).allLayers = s.allLayers := by
  refine ⟨?_, ?_, ?_, filterShapesByColor_allLayers js color s⟩
  · intro l hl h1 h2
    rw [filterShapesByColor_shapeOnMap, if_pos ⟨hl, h1, h2⟩]
    simp
  · intro l h
    rw [filterShapesByColor_shapeOnMap, if_neg (by tauto)]
  · intro earlier
    funext l
    simp only [filterShapesByColor_shapeOnMap, filterShapesByColor_allLayers]
    by_cases h : l ∈ s.allLayers ∧ l.price_area ≠ .undefined ∧ l.price_area ≠ .null
    · simp only [if_pos h]
    · simp only [if_neg h]

/-- On the sample dashboard the shape without `price_area` is still on the
map after a click on the light orange bucket, although `getColor` gives it
gray; had it been off the map before, it would be off the map after. -/
theorem filterShapesByColor_unpriced_shape_stays :
    districtNoPrice ∈ sampleDashboard.allLayers ∧
    (filterShapesByColor exactRuntime "#FEB24C" sampleDashboard).shapeOnMap districtNoPrice =
      true ∧
    getColor exactRuntime districtNoPrice.price_area = "#808080" ∧
    (filterShapesByColor exactRuntime "#FEB24C"
      { sampleDashboard with shapeOnMap := fun _ => false }).shapeOnMap districtNoPrice =
      false := by
  refine ⟨by decide!, by decide!, by decide!, by decide!⟩

/-- The loop of `resetLayers` over any list of shapes. -/
theorem foldl_reset (layers : List DistrictLayer) :
    ∀ s : Dashboard,
      (layers.foldl (fun st layer => if !st.shapeOnMap layer then st.addShape layer else st)
        s).allLayers = s.allLayers ∧
      ∀ l : DistrictLayer,
        (layers.foldl (fun st layer => if !st.shapeOnMap layer then st.addShape layer else st)
          s).shapeOnMap l = (decide (l ∈ layers) || s.shapeOnMap l) := by
  induction layers with
  | nil => intro s; simp
  | cons a as ih =>
    intro s
    rw [List.foldl_cons]
    obtain ⟨h1, h2⟩ := ih (if !s.shapeOnMap a then s.addShape a else s)
    constructor
    · rw [h1]; split <;> rfl
    · intro l
      rw [h2 l]
      by_cases hla : l = a
      · subst hla
        cases hs : s.shapeOnMap l <;> simp [hs, Dashboard.addShape]
      · cases hs : s.shapeOnMap a <;> simp [hs, Dashboard.addShape, hla]

/-- The call `resetLayers` leaves `allLayers` alone. -/
theorem resetLayers_allLayers (s : Dashboard) : (resetLayers s).allLayers = s.allLayers := by
  unfold resetLayers
  simp only []
  repeat' split
  all_goals exact (foldl_reset s.allLayers s).1

/-- Map membership of every shape after `resetLayers`. -/
theorem resetLayers_shapeOnMap (s : Dashboard) (l : DistrictLayer) :
    (resetLayers s).shapeOnMap l = (decide (l ∈ s.allLayers) || s.shapeOnMap l) := by
  unfold resetLayers
  simp only []
  repeat' split
  all_goals exact (foldl_reset s.allLayers s).2 l

/-- Any sequence of filter clicks leaves `allLayers` alone. -/
theorem foldl_filters_allLayers (js : JSBuiltins) (colors : List String) :
    ∀ s : Dashboard,
      (colors.foldl (fun st c => filterShapesByColor js c st) s).allLayers = s.allLayers := by
  induction colors with
  | nil => intro s; rfl
  | cons c cs ih => intro s; rw [List.foldl_cons, ih, filterShapesByColor_allLayers]

/-- C6: after any finite sequence of filter clicks followed by `resetLayers`
(from any state, so in particular from one with every shape on the map), the
array `allLayers` and its order are unchanged, every district shape is on the
map, and the district shapes on the map, in order, are the whole of
`allLayers`. -/
theorem resetLayers_after_filters (js : JSBuiltins) (s : Dashboard) (colors : List String) :
    (resetLayers (colors.foldl (fun st c => filterShapesByColor js c st) s)).allLayers =
      s.allLayers ∧
    (∀ l ∈ s.allLayers,
      (resetLayers (colors.foldl (fun st c => filterShapesByColor js c st) s)).shapeOnMap l =
        true) ∧
    (resetLayers (colors.foldl (fun st c => filterShapesByColor js c st) s)).allLayers.filter
        (fun l => (resetLayers
          (colors.foldl (fun st c => filterShapesByColor js c st) s)).shapeOnMap l) =
      s.allLayers := by
  have hall := foldl_filters_allLayers js colors s
  have hon : ∀ l ∈ s.allLayers,
      (resetLayers (colors.foldl (fun st c => filterShapesByColor js c st) s)).shapeOnMap l =
        true := by
    intro l hl
    rw [resetLayers_shapeOnMap, hall]
    simp [hl]
  refine ⟨by rw [resetLayers_allLayers, hall], hon, ?_⟩
  rw [resetLayers_allLayers, hall]
  exact List.filter_eq_self.mpr hon

/-! ## Stop visibility by zoom -/

/-- The `switch` of `setBusStopsLayerVisibility` compares the zoom with the
minimum zoom of the stop category. -/
theorem isVisible_eq (js : JSBuiltins) (z : ℚ) (stop : StopMarker) :
    isVisible js z stop = decide (minimumZoom stop.fclass ≤ z) := by
  have hge : ∀ c : ℚ, JSNum.ge (.fin z) (.fin c) = decide (c ≤ z) := by
    intro c
    simp only [JSNum.ge, JSNum.lt]
    by_cases h : z < c
    · simp [h]
    · simp [h, not_lt.mp h]
  have h11 := hge 11
  have h16 := hge 16
  unfold isVisible stopTypeOf minimumZoom
  simp only [ZOOM_LEVELS, STOP_TYPES.TRAIN_STATION, STOP_TYPES.TRAM_STOP, STOP_TYPES.BUS_STOP,
    STOP_TYPES.DEFAULT_STOP, toNumber]
  cases hf : stop.fclass with
  | undefined => simp [truthy, strictEq, toNumber, h16]
  | null => simp [truthy, strictEq, toNumber, h16]
  | bool b => cases b <;> simp [truthy, strictEq, toNumber, h16]
  | num n =>
    by_cases ht : truthy (.num n) = true
    · simp [ht, strictEq, toNumber, h16]
    · simp [ht, strictEq, toNumber, h16]
  | str t =>
    by_cases h1 : t = "railway_station"
    · subst h1; simp [truthy, strictEq, toNumber, h11]
    · by_cases h2 : t = "tram_stop"
      · subst h2; simp [truthy, strictEq, toNumber, h11]
      · by_cases h3 : t = "bus_stop"
        · subst h3; simp [truthy, strictEq, toNumber, h11]
        · by_cases h4 : t = ""
          · subst h4; simp [truthy, strictEq, toNumber, h16]
          · simp [truthy, strictEq, toNumber, h16, h1, h2, h3, h4]

/-- The `forEach` loop over any list of stops: each visited stop ends up a
member exactly if it is visible at that zoom. -/
theorem foldl_updateStop (js : JSBuiltins) (z : ℚ) (stops : List StopMarker) :
    ∀ s : Dashboard,
      stops.foldl (updateStop js z) s =
        { s with clusterMembers := fun m =>
            if m ∈ stops then isVisible js z m else s.clusterMembers m } := by
  induction stops with
  | nil => intro s; simp
  | cons a as ih =>
    intro s
    rw [List.foldl_cons, ih]
    have hu : updateStop js z s a =
        { s with clusterMembers := fun m =>
            if m = a then isVisible js z a else s.clusterMembers m } := by
      unfold updateStop
      cases hv : isVisible js z a <;> simp [Dashboard.addToCluster, Dashboard.removeFromCluster]
    rw [hu]
    congr 1
    funext m
    by_cases hm : m ∈ as
    · simp [hm]
    · by_cases hma : m = a
      · subst hma; simp [hm]
      · simp [hm, hma]

/-- The whole effect of `setBusStopsLayerVisibility` on the state. -/
theorem setBusStopsLayerVisibility_eq (js : JSBuiltins) (z : ℚ) (s : Dashboard) :
    setBusStopsLayerVisibility js z s =
      { s with
        clusterMembers := fun m =>
          if m ∈ visibilityStops s then isVisible js z m else s.clusterMembers m
        clusterOptions :=
          if visibilityStops s = [] then s.clusterOptions else clusterOptionsAt z } := by
  obtain ⟨hl, al, st, som, tl, bsl, dl, tom, bom, com, dom, cm, co, szh, c, zm, tleg⟩ := s
  cases bsl with
  | none => simp [setBusStopsLayerVisibility, visibilityStops]
  | some stops =>
    cases com with
    | false => simp [setBusStopsLayerVisibility, visibilityStops]
    | true =>
      cases stops with
      | nil => simp [setBusStopsLayerVisibility, visibilityStops]
      | cons a as =>
        simp only [setBusStopsLayerVisibility, visibilityStops, foldl_updateStop]
        simp

/-- Calling `setBusStopsLayerVisibility` twice with one zoom is the same as
calling it once. -/
theorem setBusStopsLayerVisibility_idem (js : JSBuiltins) (z : ℚ) (s : Dashboard) :
    setBusStopsLayerVisibility js z (setBusStopsLayerVisibility js z s) =
      setBusStopsLayerVisibility js z s := by
  have hv : visibilityStops (setBusStopsLayerVisibility js z s) = visibilityStops s := by
    rw [setBusStopsLayerVisibility_eq]; rfl
  rw [setBusStopsLayerVisibility_eq js z (setBusStopsLayerVisibility js z s), hv]
  rw [setBusStopsLayerVisibility_eq]
  simp only []
  congr 1
  · funext m
    by_cases hm : m ∈ visibilityStops s <;> simp [hm]
  · by_cases he : visibilityStops s = [] <;> simp [he]

/-- The whole effect of a `zoomend` event on the state. -/
theorem zoomend_eq (js : JSBuiltins) (z : ℚ) (s : Dashboard) :
    zoomend js z s =
      { s with
        zoom := z
        clusterMembers := fun m =>
          if m ∈ activeStops s then isVisible js z m else s.clusterMembers m
        clusterOptions :=
          if activeStops s = [] then s.clusterOptions else clusterOptionsAt z } := by
  have hfun : ∀ (L : List StopMarker) (f : StopMarker → Bool),
      (fun m => if m ∈ L then isVisible js z m
        else (if m ∈ L then isVisible js z m else f m)) =
      fun m => if m ∈ L then isVisible js z m else f m := by
    intro L f; funext m; by_cases hm : m ∈ L <;> simp [hm]
  have hopt : ∀ (L : List StopMarker) (o : ClusterOptions),
      (if L = [] then (if L = [] then o else clusterOptionsAt z) else clusterOptionsAt z) =
      if L = [] then o else clusterOptionsAt z := by
    intro L o; by_cases hL : L = [] <;> simp [hL]
  obtain ⟨hl, al, st, som, tl, bsl, dl, tom, bom, com, dom, cm, co, szh, c, zm, tleg⟩ := s
  cases bom <;> cases szh <;> cases bsl <;> cases com <;>
    simp [zoomend, activeStops, setBusStopsLayerVisibility_eq, visibilityStops, hfun, hopt]

/-- C7: when `setBusStopsLayerVisibility(z)` runs with the stop layer loaded
and the cluster group on the map, a loaded stop is a member of the cluster
group afterwards if and only if `z` is at least the minimum zoom of its
category, which is 11 for train station, tram stop and bus stop and 16 for a
missing or unrecognised category; so such a stop of the three known
categories is excluded at zoom 10 and included at zoom 11. -/
theorem setBusStopsLayerVisibility_membership (js : JSBuiltins) (z : ℚ) (s : Dashboard) (stops : List StopMarker)
    (stop : StopMarker)
    (hloaded : s.busStopsLayer = some stops) (hshown : s.clusterOnMap = true)
    (hstop : stop ∈ stops) :
    ((setBusStopsLayerVisibility js z s).clusterMembers stop = true ↔
      minimumZoom stop.fclass ≤ z) ∧
    (stop.fclass = .str "railway_station" ∨ stop.fclass = .str "tram_stop" ∨
        stop.fclass = .str "bus_stop" →
      minimumZoom stop.fclass = 11 ∧
      (setBusStopsLayerVisibility js 10 s).clusterMembers stop = false ∧
      (setBusStopsLayerVisibility js 11 s).clusterMembers stop = true) ∧
    (stop.fclass ≠ .str "railway_station" → stop.fclass ≠ .str "tram_stop" →
        stop.fclass ≠ .str "bus_stop" → minimumZoom stop.fclass = 16) := by
  have hv : stop ∈ visibilityStops s := by
    simp [visibilityStops, hloaded, hshown, hstop]
  have hm : ∀ z' : ℚ, (setBusStopsLayerVisibility js z' s).clusterMembers stop =
      decide (minimumZoom stop.fclass ≤ z') := by
    intro z'
    rw [setBusStopsLayerVisibility_eq]
    simp only [if_pos hv, isVisible_eq]
  refine ⟨by rw [hm]; simp, ?_, ?_⟩
  · intro h
    have h11 : minimumZoom stop.fclass = 11 := by
      unfold minimumZoom; rw [if_pos h]
    refine ⟨h11, ?_, ?_⟩
    · rw [hm, h11]; norm_num
    · rw [hm, h11]; norm_num
  · intro h1 h2 h3
    unfold minimumZoom
    rw [if_neg (by tauto)]

/-- On the sample dashboard the train station is out of the cluster group at
zoom 10 and in it at zoom 11. -/
theorem setBusStopsLayerVisibility_membership_witness :
    sampleDashboard.busStopsLayer = some [stopTrain, stopTram, stopBus, stopOther] ∧
    sampleDashboard.clusterOnMap = true ∧
    stopTrain ∈ [stopTrain, stopTram, stopBus, stopOther] ∧
    (setBusStopsLayerVisibility exactRuntime 10 sampleDashboard).clusterMembers stopTrain =
      false ∧
    (setBusStopsLayerVisibility exactRuntime 11 sampleDashboard).clusterMembers stopTrain =
      true :=
  ⟨rfl, rfl, by decide,
    ((setBusStopsLayerVisibility_membership exactRuntime 11 sampleDashboard
      [stopTrain, stopTram, stopBus, stopOther] stopTrain rfl rfl (by decide)).2.1
        (Or.inl rfl)).2⟩

/-- A `zoomend` event does not change which stops later events visit. -/
theorem activeStops_zoomend (js : JSBuiltins) (z : ℚ) (s : Dashboard) :
    activeStops (zoomend js z s) = activeStops s := by
  rw [zoomend_eq]; rfl

/-- Invariant of any sequence of `zoomend` events: the visited stops stay the
same, the other markers keep their membership, and the options stay when no
stop is visited. -/
theorem foldl_zoomend_inv (js : JSBuiltins) (zs : List ℚ) :
    ∀ s : Dashboard,
      activeStops (zs.foldl (fun st z => zoomend js z st) s) = activeStops s ∧
      (∀ m, m ∉ activeStops s →
        (zs.foldl (fun st z => zoomend js z st) s).clusterMembers m = s.clusterMembers m) ∧
      (activeStops s = [] →
        (zs.foldl (fun st z => zoomend js z st) s).clusterOptions = s.clusterOptions) := by
  induction zs with
  | nil => intro s; simp
  | cons z zs ih =>
    intro s
    obtain ⟨h1, h2, h3⟩ := ih (zoomend js z s)
    rw [activeStops_zoomend] at h1 h2 h3
    refine ⟨by simpa using h1, ?_, ?_⟩
    · intro m hm
      rw [List.foldl_cons, h2 m hm, zoomend_eq]
      simp [hm]
    · intro he
      rw [List.foldl_cons, h3 he, zoomend_eq]
      simp [he]

/-- C8: for every state and every non-empty sequence of zoom-settle events,
the cluster membership and the clustering options after the whole sequence
are those after the last event alone; a second call of
`setBusStopsLayerVisibility` with the same zoom changes nothing, and a second
event at the same zoom leaves the membership as it is. -/
theorem zoomend_sequence_last (js : JSBuiltins) (s : Dashboard) (zs : List ℚ) (hne : zs ≠ []) :
    (zs.foldl (fun st z => zoomend js z st) s).clusterMembers =
      (zoomend js (zs.getLast hne) s).clusterMembers ∧
    (zs.foldl (fun st z => zoomend js z st) s).clusterOptions =
      (zoomend js (zs.getLast hne) s).clusterOptions ∧
    (∀ z : ℚ, setBusStopsLayerVisibility js z (setBusStopsLayerVisibility js z s) =
      setBusStopsLayerVisibility js z s) ∧
    (∀ z : ℚ, (zoomend js z (zoomend js z s)).clusterMembers = (zoomend js z s).clusterMembers) := by
  obtain ⟨init, last, htl⟩ : ∃ init last, zs = init ++ [last] := by
    rcases List.eq_nil_or_concat zs with h | ⟨i, a, h⟩
    · exact absurd h hne
    · exact ⟨i, a, by simpa using h⟩
  subst htl
  have hlast : (init ++ [last]).getLast hne = last := by simp
  rw [hlast]
  obtain ⟨h1, h2, h3⟩ := foldl_zoomend_inv js init s
  simp only [List.foldl_append, List.foldl_cons, List.foldl_nil]
  refine ⟨?_, ?_, fun z => setBusStopsLayerVisibility_idem js z s, ?_⟩
  · rw [zoomend_eq, zoomend_eq]
    funext m
    simp only [h1]
    by_cases hm : m ∈ activeStops s
    · simp [hm]
    · simp [hm, h2 m hm]
  · rw [zoomend_eq, zoomend_eq]
    simp only [h1]
    by_cases he : activeStops s = []
    · simp [he, h3 he]
    · simp [he]
  · intro z
    rw [zoomend_eq js z (zoomend js z s), activeStops_zoomend, zoomend_eq]
    funext m
    by_cases hm : m ∈ activeStops s <;> simp [hm]
/-- On the sample dashboard, zooming to 10 and then to 11.6 leaves the same
cluster membership as zooming to 11.6 at once. -/
theorem zoomend_sequence_last_witness :
    ([10, 11.6] : List ℚ) ≠ [] ∧
    ([10, 11.6].foldl (fun st z => zoomend exactRuntime z st) sampleDashboard).clusterMembers =
      (zoomend exactRuntime 11.6 sampleDashboard).clusterMembers :=
  ⟨by simp, (zoomend_sequence_last exactRuntime sampleDashboard [10, 11.6] (by simp)).1⟩

/-! ## Cluster icons -/

/-- The test `types.has(c)` holds exactly if some child marker has category
`c`. -/
theorem contains_fclass (ms : List StopMarker) (c : String) :
    (ms.map (fun marker => marker.fclass)).contains (.str c) = true ↔ hasCategory ms c := by
  unfold hasCategory
  simp [List.contains, List.elem_eq_mem]

/-- The icon chosen by `iconCreateFunction`, by category presence. -/
theorem iconUrl_eq (ms : List StopMarker) [Decidable (hasCategory ms "railway_station")]
    [Decidable (hasCategory ms "tram_stop")] [Decidable (hasCategory ms "bus_stop")] :
    (iconCreateFunction ms).iconUrl =
      if hasCategory ms "railway_station" then "Symbols/train_station.png"
      else if hasCategory ms "tram_stop" then "Symbols/tram_stop.png"
      else if hasCategory ms "bus_stop" then "Symbols/bus_stop.png"
      else "Symbols/default_stop.png" := by
  simp only [iconCreateFunction, contains_fclass]

/-- Inserting a marker of another category does not change whether a category
is present. -/
theorem hasCategory_insert (pre post : List StopMarker) (m : StopMarker) (c : String)
    (hm : m.fclass ≠ .str c) :
    hasCategory (pre ++ m :: post) c ↔ hasCategory (pre ++ post) c := by
  unfold hasCategory
  constructor
  · rintro ⟨x, hx, hc⟩
    refine ⟨x, ?_, hc⟩
    simp only [List.mem_append, List.mem_cons] at hx ⊢
    rcases hx with h | h | h
    · exact Or.inl h
    · subst h; exact absurd hc hm
    · exact Or.inr h
  · rintro ⟨x, hx, hc⟩
    refine ⟨x, ?_, hc⟩
    simp only [List.mem_append, List.mem_cons] at hx ⊢
    tauto

/-- C9: the icon asset chosen by `iconCreateFunction` is the train-station
icon if some member is a train station, otherwise the tram-stop icon if some
member is a tram stop, otherwise the bus-stop icon if some member is a bus
stop, otherwise the default icon; two groups with the same categories present
get the same icon, and inserting a member whose category is missing or
unrecognised does not change it. -/
theorem iconCreateFunction_precedence (childMarkers : List StopMarker) :
    (hasCategory childMarkers "railway_station" →
      (iconCreateFunction childMarkers).iconUrl = "Symbols/train_station.png") ∧
    (¬ hasCategory childMarkers "railway_station" → hasCategory childMarkers "tram_stop" →
      (iconCreateFunction childMarkers).iconUrl = "Symbols/tram_stop.png") ∧
    (¬ hasCategory childMarkers "railway_station" → ¬ hasCategory childMarkers "tram_stop" →
      hasCategory childMarkers "bus_stop" →
      (iconCreateFunction childMarkers).iconUrl = "Symbols/bus_stop.png") ∧
    (¬ hasCategory childMarkers "railway_station" → ¬ hasCategory childMarkers "tram_stop" →
      ¬ hasCategory childMarkers "bus_stop" →
      (iconCreateFunction childMarkers).iconUrl = "Symbols/default_stop.png") ∧
    (∀ others : List StopMarker,
      (hasCategory others "railway_station" ↔ hasCategory childMarkers "railway_station") →
      (hasCategory others "tram_stop" ↔ hasCategory childMarkers "tram_stop") →
      (hasCategory others "bus_stop" ↔ hasCategory childMarkers "bus_stop") →
      (iconCreateFunction others).iconUrl = (iconCreateFunction childMarkers).iconUrl) ∧
    (∀ (before after : List StopMarker) (m : StopMarker),
      childMarkers = before ++ after →
      m.fclass ≠ .str "railway_station" → m.fclass ≠ .str "tram_stop" →
      m.fclass ≠ .str "bus_stop" →
      (iconCreateFunction (before ++ m :: after)).iconUrl =
        (iconCreateFunction childMarkers).iconUrl) := by
  classical
  have key : ∀ ms ms' : List StopMarker,
      (hasCategory ms' "railway_station" ↔ hasCategory ms "railway_station") →
      (hasCategory ms' "tram_stop" ↔ hasCategory ms "tram_stop") →
      (hasCategory ms' "bus_stop" ↔ hasCategory ms "bus_stop") →
      (iconCreateFunction ms').iconUrl = (iconCreateFunction ms).iconUrl := by
    intro ms ms' h1 h2 h3
    rw [iconUrl_eq, iconUrl_eq]
    simp only [h1, h2, h3]
  refine ⟨?_, ?_, ?_, ?_, key childMarkers, ?_⟩
  · intro h; rw [iconUrl_eq, if_pos h]
  · intro h1 h2; rw [iconUrl_eq, if_neg h1, if_pos h2]
  · intro h1 h2 h3; rw [iconUrl_eq, if_neg h1, if_neg h2, if_pos h3]
  · intro h1 h2 h3; rw [iconUrl_eq, if_neg h1, if_neg h2, if_neg h3]
  · intro before after m hsplit h1 h2 h3
    subst hsplit
    exact key _ _ (hasCategory_insert _ _ m _ h1) (hasCategory_insert _ _ m _ h2)
      (hasCategory_insert _ _ m _ h3)

/-! ## Cluster colour -/

/-- C10: for every count `n ≥ 0`, `getClusterColor` returns the shade keyed by
the highest of the thresholds 2, 5, 10, 20, 50 that `n` is strictly above, the
lightest shade when there is none; it is one of the six shades; every count
below 2 gets the lightest; and the twelve listed counts get the listed
shades. -/
theorem getClusterColor_table (n : ℕ) :
    getClusterColor (n : ℚ) = shadeOfThreshold (highestThresholdBelow n) ∧
    getClusterColor (n : ℚ) ∈
      ["#feedde", "#fdae6b", "#fd8d3c", "#f16913", "#d94801", "#8c2d04"] ∧
    (n < 2 → getClusterColor (n : ℚ) = "#feedde") ∧
    [0, 1, 2, 3, 5, 6, 10, 11, 20, 21, 50, 51].map (fun k : ℕ => getClusterColor (k : ℚ)) =
      ["#feedde", "#feedde", "#feedde", "#fdae6b", "#fdae6b", "#fd8d3c", "#fd8d3c", "#f16913",
        "#f16913", "#d94801", "#d94801", "#8c2d04"] := by
  refine ⟨?_, ?_, ?_, ?_⟩
  · rw [getClusterColor_nat, highestThresholdBelow_eq]
    repeat' split
    all_goals rfl
  · rw [getClusterColor_nat]
    repeat' split
    all_goals simp
  · intro h
    rw [getClusterColor_nat]
    simp [show ¬ 50 < n by omega, show ¬ 20 < n by omega, show ¬ 10 < n by omega,
      show ¬ 5 < n by omega, show ¬ 2 < n by omega]
  · simp only [List.map, getClusterColor_nat]
    decide

/-! ## Cluster settings by zoom -/

/-- With the stop layer loaded and the cluster group on the map, the call walks
through the stops of the layer. -/
theorem visibilityStops_of_loaded (s : Dashboard) (stops : List StopMarker)
    (h1 : s.busStopsLayer = some stops) (h2 : s.clusterOnMap = true) :
    visibilityStops s = stops := by
  simp [visibilityStops, h1, h2]

/-- The three bands of cluster settings. -/
theorem clusterOptionsAt_bands (z : ℚ) :
    (z < 12 → clusterOptionsAt z =
      { maxClusterRadius := .constant 100, disableClusteringAtZoom := 16 }) ∧
    (12 ≤ z ∧ z < 14 → clusterOptionsAt z =
      { maxClusterRadius := .constant 80, disableClusteringAtZoom := 18 }) ∧
    (14 ≤ z → clusterOptionsAt z =
      { maxClusterRadius := .constant 60, disableClusteringAtZoom := 20 }) := by
  unfold clusterOptionsAt
  refine ⟨fun h => by rw [if_pos h], ?_, ?_⟩
  · rintro ⟨h1, h2⟩
    rw [if_neg (by linarith), if_pos h2]
  · intro h
    rw [if_neg (by linarith), if_neg (by linarith)]

/-- C14 (amended): after `setBusStopsLayerVisibility(z)` runs with the stop
layer loaded with at least one stop and the cluster group on the map, the
clustering radius and the disable-clustering threshold are (100, 16) if
`z < 12`, (80, 18) if `12 ≤ z < 14` and (60, 20) otherwise; when the stop
layer is not loaded, has no stops, or the cluster group is not on the map, the
call changes nothing. -/
theorem setBusStopsLayerVisibility_option_bands (js : JSBuiltins) (z : ℚ) (s : Dashboard) :
    (∀ stops : List StopMarker, s.busStopsLayer = some stops → stops ≠ [] →
      s.clusterOnMap = true →
      (z < 12 → (setBusStopsLayerVisibility js z s).clusterOptions =
        { maxClusterRadius := .constant 100, disableClusteringAtZoom := 16 }) ∧
      (12 ≤ z ∧ z < 14 → (setBusStopsLayerVisibility js z s).clusterOptions =
        { maxClusterRadius := .constant 80, disableClusteringAtZoom := 18 }) ∧
      (14 ≤ z → (setBusStopsLayerVisibility js z s).clusterOptions =
        { maxClusterRadius := .constant 60, disableClusteringAtZoom := 20 })) ∧
    (s.busStopsLayer = none ∨ s.busStopsLayer = some [] ∨ s.clusterOnMap = false →
      setBusStopsLayerVisibility js z s = s) := by
  constructor
  · intro stops h1 hne h2
    have hv := visibilityStops_of_loaded s stops h1 h2
    have ho : (setBusStopsLayerVisibility js z s).clusterOptions = clusterOptionsAt z := by
      rw [setBusStopsLayerVisibility_eq]
      simp [hv, hne]
    rw [ho]
    exact clusterOptionsAt_bands z
  · intro h
    unfold setBusStopsLayerVisibility
    rcases h with h | h | h
    · rw [h]
    · rw [h]; simp
    · cases hb : s.busStopsLayer with
      | none => rfl
      | some stops => simp [h]

/-- With a stop layer that holds no stops and the cluster group on the map, a
call at zoom 13 leaves the construction-time options instead of (80, 18). -/
theorem setBusStopsLayerVisibility_empty_layer_keeps_options :
    emptyStopsDashboard.busStopsLayer = some [] ∧
    emptyStopsDashboard.clusterOnMap = true ∧
    (setBusStopsLayerVisibility exactRuntime 13 emptyStopsDashboard).clusterOptions =
      { maxClusterRadius := .zoomFunction, disableClusteringAtZoom := 16 } ∧
    (setBusStopsLayerVisibility exactRuntime 13 emptyStopsDashboard).clusterOptions ≠
      { maxClusterRadius := .constant 80, disableClusteringAtZoom := 18 } := by
  refine ⟨rfl, rfl, rfl, ?_⟩
  decide!

/-- The construction-time radius function, band by band. -/
theorem maxClusterRadius_steps (z : ℚ) :
    (z < 12 → maxClusterRadius z = 80) ∧
    (12 ≤ z ∧ z < 14 → maxClusterRadius z = 60) ∧
    (14 ≤ z ∧ z < 16 → maxClusterRadius z = 40) ∧
    (16 ≤ z → maxClusterRadius z = 30) := by
  unfold maxClusterRadius
  refine ⟨fun h => by rw [if_pos h], ?_, ?_, ?_⟩
  · rintro ⟨h1, h2⟩
    rw [if_neg (by linarith), if_pos h2]
  · rintro ⟨h1, h2⟩
    rw [if_neg (by linarith), if_neg (by linarith), if_pos h2]
  · intro h
    rw [if_neg (by linarith), if_neg (by linarith), if_neg (by linarith)]

/-- After a non-empty sequence of `zoomend` events that reach the stops, the
options are those chosen from the last zoom. -/
theorem foldl_zoomend_options (js : JSBuiltins) (s : Dashboard) (zs : List ℚ) (hne : zs ≠ [])
    (hact : activeStops s ≠ []) :
    (zs.foldl (fun st z => zoomend js z st) s).clusterOptions =
      clusterOptionsAt (zs.getLast hne) := by
  obtain ⟨init, last, htl⟩ : ∃ init last, zs = init ++ [last] := by
    rcases List.eq_nil_or_concat zs with h | ⟨i, a, h⟩
    · exact absurd h hne
    · exact ⟨i, a, by simpa using h⟩
  subst htl
  have hlast : (init ++ [last]).getLast hne = last := by simp
  rw [hlast]
  obtain ⟨h1, -, -⟩ := foldl_zoomend_inv js init s
  simp only [List.foldl_append, List.foldl_cons, List.foldl_nil]
  rw [zoomend_eq]
  simp [h1, hact]

/-- C13 (amended): from a state with the construction-time cluster options,
after any sequence of zoom-settle events: if the events do not get past the
guards of `setBusStopsLayerVisibility`, the configured clustering radius at a
zoom `z` is the step function 80, 60, 40, 30 of `z`; if they do, then after at
least one event it is the constant 100, 80 or 60 chosen from the zoom of the
last event, whatever `z`. -/
theorem configured_radius_after_zoom_events (js : JSBuiltins) (s : Dashboard) (zs : List ℚ)
    (hstart : s.clusterOptions = constructionOptions) :
    (activeStops s = [] → ∀ z : ℚ,
      (z < 12 → (zs.foldl (fun st e => zoomend js e st) s).clusterOptions.maxClusterRadius.radiusAt
        z = 80) ∧
      (12 ≤ z ∧ z < 14 →
        (zs.foldl (fun st e => zoomend js e st) s).clusterOptions.maxClusterRadius.radiusAt
          z = 60) ∧
      (14 ≤ z ∧ z < 16 →
        (zs.foldl (fun st e => zoomend js e st) s).clusterOptions.maxClusterRadius.radiusAt
          z = 40) ∧
      (16 ≤ z →
        (zs.foldl (fun st e => zoomend js e st) s).clusterOptions.maxClusterRadius.radiusAt
          z = 30)) ∧
    (activeStops s ≠ [] → ∀ hne : zs ≠ [], ∀ z : ℚ,
      (zs.getLast hne < 12 →
        (zs.foldl (fun st e => zoomend js e st) s).clusterOptions.maxClusterRadius.radiusAt
          z = 100) ∧
      (12 ≤ zs.getLast hne ∧ zs.getLast hne < 14 →
        (zs.foldl (fun st e => zoomend js e st) s).clusterOptions.maxClusterRadius.radiusAt
          z = 80) ∧
      (14 ≤ zs.getLast hne →
        (zs.foldl (fun st e => zoomend js e st) s).clusterOptions.maxClusterRadius.radiusAt
          z = 60)) := by
  constructor
  · intro hact z
    have ho := (foldl_zoomend_inv js zs s).2.2 hact
    rw [ho, hstart]
    exact maxClusterRadius_steps z
  · intro hact hne z
    rw [foldl_zoomend_options js s zs hne hact]
    obtain ⟨b1, b2, b3⟩ := clusterOptionsAt_bands (zs.getLast hne)
    refine ⟨fun h => by rw [b1 h]; rfl, fun h => by rw [b2 h]; rfl, fun h => by rw [b3 h]; rfl⟩

/-- On the sample dashboard, after zoom events at 10 and 13 the configured
radius at zoom 15 is the constant 80. -/
theorem configured_radius_after_zoom_events_witness :
    sampleDashboard.clusterOptions = constructionOptions ∧
    activeStops sampleDashboard ≠ [] ∧
    ([10, 13].foldl (fun st e => zoomend exactRuntime e st)
      sampleDashboard).clusterOptions.maxClusterRadius.radiusAt 15 = 80 :=
  ⟨rfl, by decide,
    ((configured_radius_after_zoom_events exactRuntime sampleDashboard [10, 13] rfl).2
      (by decide) (by simp) 15).2.1 (by norm_num)⟩

/-- After start-up (files loaded, stop overlay ticked) the options are the
construction-time ones; one zoom-settle event at 11.6 later the configured
radius at zoom 15 is 100, not the 40 of the step function. -/
theorem configured_radius_fixed_after_zoom :
    startedDashboard.clusterOptions = constructionOptions ∧
    startedDashboard.busStopsLayer = some sampleStops ∧
    startedDashboard.clusterOnMap = true ∧
    (zoomend exactRuntime 11.6 startedDashboard).clusterOptions.maxClusterRadius.radiusAt 15 =
      100 ∧
    (zoomend exactRuntime 11.6 startedDashboard).clusterOptions.maxClusterRadius.radiusAt 15 ≠
      40 := by
  refine ⟨by decide!, by decide!, by decide!, by decide!, by decide!⟩

/-! ## Loading -/

/-- Building the marker throws when `fclass` is not a string. -/
theorem stopCircle_not_string (feature : StopMarker) (h : ∀ t : String, feature.fclass ≠ .str t) :
    stopCircle feature = .error "TypeError" := by
  unfold stopCircle
  cases hf : feature.fclass with
  | str t => exact absurd hf (h t)
  | undefined => rfl
  | null => rfl
  | bool b => rfl
  | num n => rfl

/-- The walk over the stop features ends with an exception as soon as one
feature has an `fclass` that is not a string; the stop layer variable and the
zoom handler are as before. -/
theorem addStopFeatures_error (features : List StopMarker) :
    ∀ s : Dashboard, (∃ f ∈ features, ∀ t : String, f.fclass ≠ .str t) →
      (addStopFeatures features s).2 = some "TypeError" ∧
      (addStopFeatures features s).1.busStopsLayer = s.busStopsLayer ∧
      (addStopFeatures features s).1.stopsZoomHandler = s.stopsZoomHandler := by
  induction features with
  | nil => intro s h; obtain ⟨f, hf, _⟩ := h; cases hf
  | cons a as ih =>
    intro s h
    by_cases ha : ∀ t : String, a.fclass ≠ .str t
    · simp [addStopFeatures, pointToLayer, stopCircle_not_string a ha]
    · have hrest : ∃ f ∈ as, ∀ t : String, f.fclass ≠ .str t := by
        obtain ⟨f, hf, hft⟩ := h
        rcases List.mem_cons.mp hf with rfl | hmem
        · exact absurd hft ha
        · exact ⟨f, hmem, hft⟩
      push_neg at ha
      obtain ⟨t, ht⟩ := ha
      have hok : ∃ m, stopCircle a = .ok m := by
        unfold stopCircle; rw [ht]; exact ⟨_, rfl⟩
      obtain ⟨m, hm⟩ := hok
      have hstep : addStopFeatures (a :: as) s = addStopFeatures as (s.addToCluster a) := by
        simp [addStopFeatures, pointToLayer, hm]
      rw [hstep]
      exact ih (s.addToCluster a) hrest

/-- C12: a stop feature whose `fclass` is not a string makes the marker
building of `loadBusStopsLayer` throw, and the load then leaves `busStopsLayer`
as it was (null) and logs an error; a missing name alone gives the label
`Transport Stop`, and an unrecognised string category gives a gray marker. -/
theorem loadBusStopsLayer_missing_fclass_throws :
    (∀ (lib : Leaflet) (js : JSBuiltins) (features : List StopMarker) (a : App),
      (∃ f ∈ features, ∀ t : String, f.fclass ≠ .str t) →
      (loadBusStopsLayer lib js features a).2 = some "TypeError" ∧
      (loadBusStopsLayer lib js features a).1.dash.busStopsLayer = a.dash.busStopsLayer ∧
      (loadGeoJSON "Park/Transport.geojson" (loadBusStopsLayer lib js features)
        a).dash.busStopsLayer = a.dash.busStopsLayer ∧
      (loadGeoJSON "Park/Transport.geojson" (loadBusStopsLayer lib js features) a).errors =
        a.errors ++ ["Error loading GeoJSON from Park/Transport.geojson"]) ∧
    stopCircle stopNoClass = .error "TypeError" ∧
    (loadGeoJSON "Park/Transport.geojson"
      (loadBusStopsLayer strictLeaflet exactRuntime [stopTrain, stopNoClass, stopBus])
      initialApp).dash.busStopsLayer = none ∧
    (∀ feature : StopMarker, ∀ t : String, feature.fclass = .str t →
      ¬ truthy feature.name = true →
      ∃ m, stopCircle feature = .ok m ∧ m.popupName = .str "Transport Stop") ∧
    (∀ feature : StopMarker, ∀ t : String, feature.fclass = .str t →
      t ≠ "bus_stop" → t ≠ "tram_stop" → t ≠ "railway_station" →
      ∃ m, stopCircle feature = .ok m ∧ m.fillColor = "gray") := by
  refine ⟨?_, rfl, ?_, ?_, ?_⟩
  · intro lib js features a h
    obtain ⟨h1, h2, -⟩ := addStopFeatures_error features a.dash h
    have hload : loadBusStopsLayer lib js features a =
        ({ a with dash := (addStopFeatures features a.dash).1 }, some "TypeError") := by
      unfold loadBusStopsLayer
      rcases hres : addStopFeatures features a.dash with ⟨d, e⟩
      rw [hres] at h1
      simp only at h1
      subst h1
      rfl
    refine ⟨by rw [hload], by rw [hload]; exact h2, ?_, ?_⟩
    · unfold loadGeoJSON; rw [hload]; exact h2
    · unfold loadGeoJSON; rw [hload]
      show a.errors ++ [_] = a.errors ++ [_]
      congr 2
  · decide!
  · intro feature t ht hn
    refine ⟨_, by unfold stopCircle; rw [ht], ?_⟩
    simp [hn]
  · intro feature t ht h1 h2 h3
    refine ⟨_, by unfold stopCircle; rw [ht], ?_⟩
    simp [strictEq, h1, h2, h3]
/-- Adding every marker of a list to the cluster group. -/
theorem foldl_addToCluster (stops : List StopMarker) :
    ∀ d : Dashboard,
      stops.foldl Dashboard.addToCluster d =
        { d with clusterMembers := fun m => if m ∈ stops then true else d.clusterMembers m } := by
  induction stops with
  | nil => intro d; simp
  | cons a as ih =>
    intro d
    rw [List.foldl_cons, ih]
    simp only [Dashboard.addToCluster]
    congr 1
    funext m
    by_cases hm : m ∈ as
    · simp [hm]
    · by_cases hma : m = a
      · simp [hma]
      · simp [hm, hma]

/-- When every feature has a string `fclass`, the walk over the stop features
adds every marker and throws nothing. -/
theorem addStopFeatures_ok (stops : List StopMarker) :
    ∀ d : Dashboard, (∀ f ∈ stops, ∃ t : String, f.fclass = .str t) →
      addStopFeatures stops d = (stops.foldl Dashboard.addToCluster d, none) := by
  induction stops with
  | nil => intro d _; rfl
  | cons a as ih =>
    intro d h
    obtain ⟨t, ht⟩ := h a (List.mem_cons_self _ _)
    have hok : ∃ m, stopCircle a = .ok m := by
      unfold stopCircle; rw [ht]; exact ⟨_, rfl⟩
    obtain ⟨m, hm⟩ := hok
    have hstep : addStopFeatures (a :: as) d = addStopFeatures as (d.addToCluster a) := by
      simp [addStopFeatures, pointToLayer, hm]
    rw [hstep, ih _ (fun f hf => h f (List.mem_cons_of_mem _ hf)), List.foldl_cons]

/-- With the cluster group off the map the call returns at its first guard. -/
theorem setBusStopsLayerVisibility_hidden (js : JSBuiltins) (z : ℚ) (s : Dashboard)
    (h : s.clusterOnMap = false) : setBusStopsLayerVisibility js z s = s := by
  unfold setBusStopsLayerVisibility
  cases s.busStopsLayer with
  | none => rfl
  | some stops => simp [h]

/-- The final state of the six load orders, for any library behaviour and any
files whose stop features all have a string `fclass`. -/
theorem runLoads_by_order (lib : Leaflet) (js : JSBuiltins) (districts : List DistrictLayer)
    (stops : List StopMarker) (hvalid : ∀ f ∈ stops, ∃ t : String, f.fclass = .str t) :
    (∀ order ∈ [[LoadEvent.district, .train, .stops],
        [.train, .district, .stops], [.train, .stops, .district]],
      (runLoads lib js districts stops order).layerControl = some expectedOverlays ∧
      (runLoads lib js districts stops order).dash.stopsZoomHandler = true ∧
      (runLoads lib js districts stops order).errors = []) ∧
    (lib.controlRejectsNull = true →
      ∀ order ∈ [[LoadEvent.district, .stops, .train],
        [.stops, .district, .train], [.stops, .train, .district]],
      (runLoads lib js districts stops order).layerControl = some expectedOverlays ∧
      (runLoads lib js districts stops order).dash.stopsZoomHandler = false ∧
      (runLoads lib js districts stops order).errors =
        ["Error loading GeoJSON from Park/Transport.geojson"]) ∧
    (lib.controlRejectsNull = false →
      ∀ order ∈ [[LoadEvent.district, .stops, .train],
        [.stops, .district, .train], [.stops, .train, .district]],
      (runLoads lib js districts stops order).layerControl =
        some [("Train Network", none), ("Transport Stops/Stations", some .markerCluster)] ∧
      (runLoads lib js districts stops order).dash.trainLayer = true) ∧
    (∀ order ∈ [[LoadEvent.district, .train, .stops],
        [.train, .district, .stops], [.train, .stops, .district],
        [.district, .stops, .train], [.stops, .district, .train], [.stops, .train, .district]],
      (runLoads lib js districts stops order).dash.allLayers = districts ∧
      (runLoads lib js districts stops order).dash.busStopsLayer = some stops ∧
      ∀ l ∈ districts, (runLoads lib js districts stops order).dash.shapeOnMap l = true) := by
  have hstr : "Error loading GeoJSON from " ++ "Park/Transport.geojson" =
      "Error loading GeoJSON from Park/Transport.geojson" := by decide
  obtain ⟨b⟩ := lib
  refine ⟨?_, ?_, ?_, ?_⟩
  · intro order horder
    simp only [List.mem_cons, List.mem_singleton, List.not_mem_nil, or_false] at horder
    rcases horder with rfl | rfl | rfl <;>
      simp [runLoads, loadStep, loadGeoJSON, loadDistrictData, loadTrainNetworkLayer,
        loadBusStopsLayer, createLayerControl, initialApp, addStopFeatures_ok _ _ hvalid,
        foldl_addToCluster, setBusStopsLayerVisibility_hidden, expectedOverlays]
  · intro hb order horder
    simp only at hb
    subst hb
    simp only [List.mem_cons, List.mem_singleton, List.not_mem_nil, or_false] at horder
    rcases horder with rfl | rfl | rfl <;>
      simp [runLoads, loadStep, loadGeoJSON, loadDistrictData, loadTrainNetworkLayer,
        loadBusStopsLayer, createLayerControl, initialApp, addStopFeatures_ok _ _ hvalid,
        foldl_addToCluster, setBusStopsLayerVisibility_hidden, expectedOverlays, hstr]
  · intro hb order horder
    simp only at hb
    subst hb
    simp only [List.mem_cons, List.mem_singleton, List.not_mem_nil, or_false] at horder
    rcases horder with rfl | rfl | rfl <;>
      simp [runLoads, loadStep, loadGeoJSON, loadDistrictData, loadTrainNetworkLayer,
        loadBusStopsLayer, createLayerControl, initialApp, addStopFeatures_ok _ _ hvalid,
        foldl_addToCluster, setBusStopsLayerVisibility_hidden, expectedOverlays]
  · intro order horder
    simp only [List.mem_cons, List.mem_singleton, List.not_mem_nil, or_false] at horder
    cases b <;> rcases horder with rfl | rfl | rfl | rfl | rfl | rfl <;>
      simp [runLoads, loadStep, loadGeoJSON, loadDistrictData, loadTrainNetworkLayer,
        loadBusStopsLayer, createLayerControl, initialApp, addStopFeatures_ok _ _ hvalid,
        foldl_addToCluster, setBusStopsLayerVisibility_hidden, expectedOverlays]
/-- C11: for any library behaviour and any well-formed files, when the train
file arrives before the stop file the control offers both overlays, the stop
zoom handler is installed and nothing is logged; when the stop file arrives
first, `createLayerControl` runs with `trainLayer` still null: if the library
throws on the null overlay, the stop callback is cut short (an error is logged
and its zoom handler is never installed), and if it does not, the control
keeps `null` under `Train Network` for good.  The district shapes are
registered and on the map in every order.  The same, evaluated on the sample
files. -/
theorem load_order_changes_final_state :
    (∀ (lib : Leaflet) (js : JSBuiltins) (districts : List DistrictLayer)
        (stops : List StopMarker), (∀ f ∈ stops, ∃ t : String, f.fclass = .str t) →
        (∀ order ∈ [[LoadEvent.district, .train, .stops],
            [.train, .district, .stops], [.train, .stops, .district]],
          (runLoads lib js districts stops order).layerControl = some expectedOverlays ∧
          (runLoads lib js districts stops order).dash.stopsZoomHandler = true ∧
          (runLoads lib js districts stops order).errors = []) ∧
        (lib.controlRejectsNull = true →
          ∀ order ∈ [[LoadEvent.district, .stops, .train],
            [.stops, .district, .train], [.stops, .train, .district]],
          (runLoads lib js districts stops order).layerControl = some expectedOverlays ∧
          (runLoads lib js districts stops order).dash.stopsZoomHandler = false ∧
          (runLoads lib js districts stops order).errors =
            ["Error loading GeoJSON from Park/Transport.geojson"]) ∧
        (lib.controlRejectsNull = false →
          ∀ order ∈ [[LoadEvent.district, .stops, .train],
            [.stops, .district, .train], [.stops, .train, .district]],
          (runLoads lib js districts stops order).layerControl =
            some [("Train Network", none), ("Transport Stops/Stations", some .markerCluster)] ∧
          (runLoads lib js districts stops order).dash.trainLayer = true) ∧
        (∀ order ∈ [[LoadEvent.district, .train, .stops],
            [.train, .district, .stops], [.train, .stops, .district],
            [.district, .stops, .train], [.stops, .district, .train], [.stops, .train, .district]],
          (runLoads lib js districts stops order).dash.allLayers = districts ∧
          (runLoads lib js districts stops order).dash.busStopsLayer = some stops ∧
          ∀ l ∈ districts, (runLoads lib js districts stops order).dash.shapeOnMap l = true)) ∧
   ((∀ lib : Leaflet, ∀ order ∈ [[LoadEvent.district, .train, .stops],
        [.train, .district, .stops], [.train, .stops, .district]],
      (runLoads lib exactRuntime sampleDistricts sampleStops order).layerControl =
        some expectedOverlays ∧
      (runLoads lib exactRuntime sampleDistricts sampleStops order).dash.stopsZoomHandler =
        true ∧
      (runLoads lib exactRuntime sampleDistricts sampleStops order).errors = []) ∧
    (∀ lib : Leaflet, lib.controlRejectsNull = true →
      ∀ order ∈ [[LoadEvent.district, .stops, .train],
        [.stops, .district, .train], [.stops, .train, .district]],
      (runLoads lib exactRuntime sampleDistricts sampleStops order).layerControl =
        some expectedOverlays ∧
      (runLoads lib exactRuntime sampleDistricts sampleStops order).dash.stopsZoomHandler =
        false ∧
      (runLoads lib exactRuntime sampleDistricts sampleStops order).errors =
        ["Error loading GeoJSON from Park/Transport.geojson"]) ∧
    (∀ lib : Leaflet, lib.controlRejectsNull = false →
      ∀ order ∈ [[LoadEvent.district, .stops, .train],
        [.stops, .district, .train], [.stops, .train, .district]],
      (runLoads lib exactRuntime sampleDistricts sampleStops order).layerControl =
        some [("Train Network", none), ("Transport Stops/Stations", some .markerCluster)] ∧
      (runLoads lib exactRuntime sampleDistricts sampleStops order).dash.trainLayer = true) ∧
    (∀ lib : Leaflet, ∀ order ∈ [[LoadEvent.district, .train, .stops],
        [.train, .district, .stops], [.train, .stops, .district],
        [.district, .stops, .train], [.stops, .district, .train], [.stops, .train, .district]],
      (runLoads lib exactRuntime sampleDistricts sampleStops order).dash.allLayers =
        sampleDistricts ∧
      (runLoads lib exactRuntime sampleDistricts sampleStops order).dash.busStopsLayer =
        some sampleStops ∧
      ∀ l ∈ sampleDistricts,
        (runLoads lib exactRuntime sampleDistricts sampleStops order).dash.shapeOnMap l =
          true)) := by
  refine ⟨fun lib js districts stops hvalid => runLoads_by_order lib js districts stops hvalid,
    ?_⟩
  refine ⟨?_, ?_, ?_, ?_⟩
  · rintro ⟨b⟩ order horder
    simp only [List.mem_cons, List.mem_singleton, List.not_mem_nil, or_false] at horder
    cases b <;> rcases horder with rfl | rfl | rfl <;> decide!
  · rintro ⟨b⟩ hb order horder
    simp only at hb
    subst hb
    simp only [List.mem_cons, List.mem_singleton, List.not_mem_nil, or_false] at horder
    rcases horder with rfl | rfl | rfl <;> decide!
  · rintro ⟨b⟩ hb order horder
    simp only at hb
    subst hb
    simp only [List.mem_cons, List.mem_singleton, List.not_mem_nil, or_false] at horder
    rcases horder with rfl | rfl | rfl <;> decide!
  · rintro ⟨b⟩ order horder
    simp only [List.mem_cons, List.mem_singleton, List.not_mem_nil, or_false] at horder
    cases b <;> rcases horder with rfl | rfl | rfl | rfl | rfl | rfl <;> decide!
end MunichCalculator
